import Mathlib

/-!
# KAALCAL26 registration site: the API handlers and the browser scripts

A shallow embedding of the handlers under `src/api/` and, in the later
sections, of the scripts under `src/public/`.  Each handler is a pure
function from the outcome of its external calls (`Env`), the request and the
database contents (`World`) to the response and the new database contents.
The document database and the mail relay are external: a call to one of them
either resolves or throws, and which of the two happens is read from `Env`.
-/

namespace Kaalcal

/-! ## JavaScript strings -/

/-- The value of `s.length` in JavaScript: the number of UTF-16 code units. -/
def jsLength (s : String) : Nat :=
  (s.data.map fun c => if c.toNat < 65536 then 1 else 2).sum

/-- White space and line terminators, the characters `String.prototype.trim` strips. -/
def jsWhitespace (c : Char) : Bool :=
  let n := c.toNat
  (9 ≤ n && n ≤ 13) || n == 32 || n == 160 || n == 5760 || (8192 ≤ n && n ≤ 8202) ||
    n == 8232 || n == 8233 || n == 8239 || n == 8287 || n == 12288 || n == 65279

/-- The method `String.prototype.trim`. -/
def jsTrim (s : String) : String :=
  ⟨((s.data.dropWhile jsWhitespace).reverse.dropWhile jsWhitespace).reverse⟩

/-- Lower-casing of the ASCII letters (other characters are left as they are). -/
def lowercase (s : String) : String :=
  ⟨s.data.map Char.toLower⟩

/-- Truthiness of a value that is `undefined` or a string: `!v` is false exactly
for a non-empty string. -/
def truthy : Option String → Bool
  | some s => s != ""
  | none => false

/-! ## Environment, records and responses -/

/-- One message handed to `transporter.sendMail` (the sender, `from`, is left
out). -/
structure Mail where
  /-- the option named to of the call -/
  recipients : List String
  subject : String
  /-- the option `html` or `text` of the call -/
  body : String
  deriving DecidableEq, Repr

/-- The outcome of everything a handler reaches outside the process. -/
structure Env where
  /-- the value of `Date.now()` / `new Date()` during the request -/
  now : Nat
  /-- `connectDB()` resolves -/
  connectOk : Bool
  /-- the k-th database operation of the request resolves (counted from 0) -/
  dbOk : Nat → Bool
  /-- the `_id` the driver gives to a document created during the request -/
  freshId : String
  /-- `getEmailTransporter()` resolves -/
  transporterOk : Bool
  /-- the k-th `sendMail` call of the request resolves (counted from 0) -/
  mailOk : Nat → Bool
  /-- `process.env.CONTACT_EMAILS` -/
  contactEmails : Option String
  /-- representative of a character in its class of case variants, as the regular
  expression engine uses for `$options: 'i'` -/
  caseFold : Char → Char
  /-- the database compiles the pattern (asked only for a pattern that uses a
  regular-expression operator other than the dot) -/
  regexValid : String → Bool
  /-- the database finds a match of the pattern, compiled with option `i`, in the
  subject (asked only for a pattern that uses an operator other than the dot) -/
  regexEngine : String → String → Bool
  /-- the text `new Date().toLocaleDateString('tr-TR')` -/
  localeDate : String := ""
  /-- the text `new Date().toLocaleString('tr-TR')` -/
  localeDateTime : String := ""
  /-- `process.env.NODE_ENV` -/
  nodeEnv : Option String := none

/-- A document of the `ContactMessage` model (`contact.js`, `messages.js`). -/
structure ContactMessage where
  _id : String
  name : String
  email : String
  message : String
  status : Option String
  createdAt : Nat
  deriving DecidableEq, Repr

/-- A document of the `Application` model (`applications.js`); a field that a
stored document does not carry is `none`.  The same record is the shape of a
request body of `POST`/`PUT /api/applications`, restricted to the schema paths. -/
structure Application where
  id : Option String := none
  type : Option String := none
  fullName : Option String := none
  email : Option String := none
  phone : Option String := none
  status : Option String := none
  createdAt : Option Nat := none
  updatedAt : Option Nat := none
  updatedBy : Option String := none
  assignedTo : Option String := none
  assignedAt : Option Nat := none
  assignedBy : Option String := none
  notes : Option String := none
  notesUpdatedAt : Option Nat := none
  notesUpdatedBy : Option String := none
  deriving DecidableEq, Repr

/-- The database collections and the mail handed over to the relay so far. -/
structure World where
  applications : List Application := []
  messages : List ContactMessage := []
  outbox : List Mail := []
  deriving DecidableEq, Repr

/-- One entry of `errors.array()`. -/
structure FieldError where
  path : String
  msg : String
  deriving DecidableEq, Repr

/-- The key `pagination` of a response of `/api/contact-messages`; `pages` is
`none` when the quotient is not a finite number (JSON `null`). -/
structure Pagination where
  page : Nat
  limit : Nat
  total : Nat
  pages : Option Nat
  deriving DecidableEq, Repr

/-- The keys a response of `/api/health` adds to the envelope; `database` and
`email` are the two keys of `services`. -/
structure HealthInfo where
  timestamp : Nat
  environment : String
  version : String
  database : String
  email : String
  deriving DecidableEq, Repr

/-- The HTTP status and the JSON body of a response: `success` and `message`
are the envelope, the other fields are the payload a handler adds (`none`/`[]`
when the body does not carry the key): `application` is the key `data` holding
one application, `contactMessage` the key `message` holding a document,
`applicationStatus` the key `status` of the body.  The `error` text of a 500
body, the text of the driver's exception, is not modelled. -/
structure Response where
  status : Nat
  success : Bool
  message : Option String := none
  errors : List FieldError := []
  data : Option (List Application) := none
  count : Option Nat := none
  application : Option Application := none
  messages : Option (List ContactMessage) := none
  contactMessage : Option ContactMessage := none
  /-- the key `data` holding a list of contact messages -/
  messageList : Option (List ContactMessage) := none
  /-- the key `data` holding one contact message -/
  messageData : Option ContactMessage := none
  applicationId : Option String := none
  applicationStatus : Option String := none
  pagination : Option Pagination := none
  health : Option HealthInfo := none
  deriving DecidableEq, Repr

/-- The query string of a request, each parameter absent or a string. -/
structure Query where
  id : Option String := none
  status : Option String := none
  type : Option String := none
  search : Option String := none
  /-- the parameter `page`, a string that spells a natural number -/
  page : Option Nat := none
  /-- the parameter `limit`, a string that spells a natural number -/
  limit : Option Nat := none
  deriving DecidableEq, Repr

/-! ## `src/api/contact.js` -/

/-- The body of `POST /api/contact`. -/
structure ContactBody where
  name : Option String := none
  email : Option String := none
  message : Option String := none
  deriving DecidableEq, Repr

/-- A request to `/api/contact`.  `validationContexts` are the errors that
validation chains run on the request before the handler have recorded on it,
which is what `validationResult(req)` reads; the platform delivers a request
with none. -/
structure ContactRequest where
  method : String
  body : ContactBody := {}
  validationContexts : List FieldError := []
  deriving DecidableEq, Repr

/-- The check `isLength({ min, max })` of the validator library: the length in
code points lies in the range. -/
def isLength (s : String) (min max : Nat) : Bool :=
  min ≤ s.length && s.length ≤ max

/-- The array `validateContact`: the three validation chains, as the list of
errors they record for a body.  `isEmail` is the library's address check.  A
field that is absent is validated as the empty string. -/
def validateContact (isEmail : String → Bool) (b : ContactBody) : List FieldError :=
  (if isLength (jsTrim (b.name.getD "")) 2 100 then []
    else [⟨"name", "Name must be between 2 and 100 characters"⟩]) ++
  (if isEmail (b.email.getD "") then []
    else [⟨"email", "Please provide a valid email address"⟩]) ++
  (if isLength (jsTrim (b.message.getD "")) 10 1000 then []
    else [⟨"message", "Message must be between 10 and 1000 characters"⟩])

/-- The call `validationResult(req)`: the errors recorded on the request. -/
def validationResult (req : ContactRequest) : List FieldError :=
  req.validationContexts

/-- The document `new ContactMessage({ name, email, message })` after the schema
setters (`trim`, `lowercase`) and defaults (`status`, `createdAt`), or `none`
when a `required` or `maxlength` validator of `contactMessageSchema` rejects it
on `save()`. -/
def newContactMessage (env : Env) (b : ContactBody) : Option ContactMessage :=
  match b.name, b.email, b.message with
  | some name, some email, some message =>
    let name := jsTrim name
    let email := lowercase (jsTrim email)
    let message := jsTrim message
    if jsLength name = 0 ∨ 100 < jsLength name then none
    else if jsLength email = 0 then none
    else if jsLength message = 0 ∨ 1000 < jsLength message then none
    else some { _id := env.freshId, name := name, email := email, message := message,
                status := some "unread", createdAt := env.now }
  | _, _, _ => none

/-- The recipients of the contact notification: `process.env.CONTACT_EMAILS` or
the built-in pair, as one address-list string. -/
def contactRecipients (env : Env) : String :=
  match env.contactEmails with
  | some s => if s != "" then s else "kaal55499@gmail.com,kaalcal28@gmail.com"
  | none => "kaal55499@gmail.com,kaalcal28@gmail.com"

/-- The object `mailOptions` of `sendContactEmail`. -/
def contactMail (env : Env) (name email message : String) : Mail :=
  { recipients := [contactRecipients env],
    subject := "KAALCAL26 - New Contact Message from " ++ name,
    body :=
    "\n" ++
    "            <div style=\"font-family: Arial, sans-serif; max-width: 600px; margin: 0 auto; background: #f8f9fa; padding: 20px; border-radius: 10px;\">\n" ++
    "                <div style=\"background: #4D0000; color: #FFDF00; padding: 20px; text-align: center; border-radius: 10px 10px 0 0;\">\n" ++
    "                    <h1 style=\"margin: 0; font-size: 24px;\">KAALCAL26</h1>\n" ++
    "                    <p style=\"margin: 5px 0 0; opacity: 0.9;\">New Contact Message</p>\n" ++
    "                </div>\n" ++
    "                \n" ++
    "                <div style=\"background: white; padding: 30px; border-radius: 0 0 10px 10px;\">\n" ++
    "                    <div style=\"margin-bottom: 20px;\">\n" ++
    "                        <h3 style=\"color: #4D0000; margin: 0 0 10px;\">Sender Information</h3>\n" ++
    "                        <p style=\"margin: 5px 0;\"><strong>Name:</strong> " ++
    name ++
    "</p>\n" ++
    "                        <p style=\"margin: 5px 0;\"><strong>Email:</strong> " ++
    email ++
    "</p>\n" ++
    "                        <p style=\"margin: 5px 0;\"><strong>Date:</strong> " ++
    env.localeDateTime ++
    "</p>\n" ++
    "                    </div>\n" ++
    "                    \n" ++
    "                    <div style=\"margin-bottom: 20px;\">\n" ++
    "                        <h3 style=\"color: #4D0000; margin: 0 0 10px;\">Message</h3>\n" ++
    "                        <div style=\"background: #f8f9fa; padding: 15px; border-left: 4px solid #FFDF00; border-radius: 5px;\">\n" ++
    "                            <p style=\"margin: 0; line-height: 1.6;\">" ++
    message ++
    "</p>\n" ++
    "                        </div>\n" ++
    "                    </div>\n" ++
    "                    \n" ++
    "                    <div style=\"text-align: center; margin-top: 30px; padding-top: 20px; border-top: 1px solid #eee;\">\n" ++
    "                        <p style=\"margin: 0; color: #666; font-size: 12px;\">\n" ++
    "                            This message was sent from the KAALCAL26 website contact form\n" ++
    "                        </p>\n" ++
    "                    </div>\n" ++
    "                </div>\n" ++
    "            </div>\n" ++
    "        " }

/-- The function `sendContactEmail`: `none` when `sendMail` throws (the error is
re-thrown), the outbox with the mail added when it resolves. -/
def sendContactEmail (env : Env) (name email message : String) (outbox : List Mail) :
    Option (List Mail) :=
  if env.mailOk 0 then some (outbox ++ [contactMail env name email message])
  else none

namespace Contact

/-- The handler of `/api/contact`. -/
def handler (env : Env) (req : ContactRequest) (w : World) : Response × World :=
  if req.method ≠ "POST" then
    ({ status := 405, success := false, message := some "Method not allowed" }, w)
  else if !env.connectOk then
    ({ status := 500, success := false, message := some "Internal server error" }, w)
  else
    let errors := validationResult req
    if !errors.isEmpty then
      ({ status := 400, success := false, errors := errors }, w)
    else
      match newContactMessage env req.body with
      | none => ({ status := 500, success := false, message := some "Internal server error" }, w)
      | some contactMessage =>
        if !env.dbOk 0 then
          ({ status := 500, success := false, message := some "Internal server error" }, w)
        else
          let w := { w with messages := w.messages ++ [contactMessage] }
          let w := match sendContactEmail env (req.body.name.getD "undefined")
              (req.body.email.getD "undefined") (req.body.message.getD "undefined") w.outbox with
            | some outbox => { w with outbox := outbox }
            | none => w
          ({ status := 201, success := true, message := some "Contact message sent successfully" }, w)

end Contact

/-! ## `src/api/applications.js` -/

/-- A request to `/api/applications`. -/
structure AppRequest where
  method : String
  query : Query := {}
  body : Application := {}
  deriving DecidableEq, Repr

/-- The characters that are operators of a regular expression:
`\ ^ $ . | ? * + ( ) [ ] { }`, by code point. -/
def regexSpecial (c : Char) : Bool :=
  c.toNat ∈ [92, 94, 36, 46, 124, 63, 42, 43, 40, 41, 91, 93, 123, 125]

/-- One pattern character against one subject character, option `i`: the dot
matches every character but the line feed, any other character matches its
case variants. -/
def charMatches (fold : Char → Char) (p c : Char) : Bool :=
  if p.toNat = 46 then c.toNat != 10 else fold p == fold c

/-- The pattern matches at the start of the subject. -/
def matchesAt (fold : Char → Char) : List Char → List Char → Bool
  | [], _ => true
  | _ :: _, [] => false
  | p :: ps, c :: cs => charMatches fold p c && matchesAt fold ps cs

/-- The pattern matches somewhere in the subject (a regular expression is not
anchored). -/
def regexSearch (fold : Char → Char) (p : List Char) : List Char → Bool
  | [] => matchesAt fold p []
  | c :: cs => matchesAt fold p (c :: cs) || regexSearch fold p cs

/-- The pattern is made of ordinary characters and dots only. -/
def simplePattern (pattern : String) : Bool :=
  pattern.data.all fun c => !regexSpecial c || c.toNat == 46

/-- The condition `{ $regex: pattern, $options: 'i' }` on a field: the pattern is
a regular expression, searched in the field value; a document without the field
does not match. -/
def regexTest (env : Env) (pattern : String) : Option String → Bool
  | none => false
  | some subject =>
    if simplePattern pattern then regexSearch env.caseFold pattern.data subject.data
    else env.regexEngine pattern subject

/-- The filter object `getApplications` builds from the query, as a predicate on
documents. -/
def buildFilter (env : Env) (q : Query) (a : Application) : Bool :=
  (if truthy q.status && q.status != some "all" then a.status == q.status else true) &&
  (if truthy q.type && q.type != some "all" then a.type == q.type else true) &&
  (match q.search with
   | some search =>
     if search != "" then
       regexTest env search a.fullName || regexTest env search a.email ||
         regexTest env search a.id
     else true
   | none => true)

/-- The sort key of `createdAt`: a document without the field sorts below every
date. -/
def createdAtKey (a : Application) : Nat :=
  match a.createdAt with
  | none => 0
  | some t => t + 1

/-- The order of `.sort({ createdAt: -1 })`: `a` may stand before `b`. -/
def createdAtDesc (a b : Application) : Prop :=
  createdAtKey b ≤ createdAtKey a

instance : DecidableRel createdAtDesc := fun a b =>
  inferInstanceAs (Decidable (createdAtKey b ≤ createdAtKey a))

/-- The query `Application.find(filter).sort({ createdAt: -1 })`: `none` when
the database refuses the pattern of a search. -/
def findSorted (env : Env) (q : Query) (apps : List Application) : Option (List Application) :=
  match q.search with
  | some search =>
    if search != "" && !simplePattern search && !env.regexValid search then none
    else some ((apps.filter (buildFilter env q)).insertionSort createdAtDesc)
  | none => some ((apps.filter (buildFilter env q)).insertionSort createdAtDesc)

/-- The function `getApplications`. -/
def getApplications (env : Env) (req : AppRequest) (w : World) : Response × World :=
  if !env.dbOk 0 then
    ({ status := 500, success := false, message := some "Failed to fetch applications" }, w)
  else
    match findSorted env req.query w.applications with
    | none => ({ status := 500, success := false, message := some "Failed to fetch applications" }, w)
    | some applications =>
      ({ status := 200, success := true, data := some applications,
         count := some applications.length }, w)

/-- The document `new Application(applicationData)`: the body with the schema
defaults for `status`, `createdAt` and `updatedAt`. -/
def newApplication (env : Env) (data : Application) : Application :=
  { data with
    status := data.status <|> some "pending",
    createdAt := data.createdAt <|> some env.now,
    updatedAt := data.updatedAt <|> some env.now }

/-- The function `createApplication`. -/
def createApplication (env : Env) (req : AppRequest) (w : World) : Response × World :=
  if !env.dbOk 0 then
    ({ status := 500, success := false, message := some "Failed to create application" }, w)
  else
    let application := newApplication env req.body
    ({ status := 201, success := true, message := some "Application created successfully",
       application := some application },
     { w with applications := w.applications ++ [application] })

/-- The update document `{ ...updateData, updatedAt: new Date() }` applied to a
stored document: every path the body carries is set, `updatedAt` is set last. -/
def applyUpdate (now : Nat) (updateData doc : Application) : Application :=
  { id := updateData.id <|> doc.id,
    type := updateData.type <|> doc.type,
    fullName := updateData.fullName <|> doc.fullName,
    email := updateData.email <|> doc.email,
    phone := updateData.phone <|> doc.phone,
    status := updateData.status <|> doc.status,
    createdAt := updateData.createdAt <|> doc.createdAt,
    updatedAt := some now,
    updatedBy := updateData.updatedBy <|> doc.updatedBy,
    assignedTo := updateData.assignedTo <|> doc.assignedTo,
    assignedAt := updateData.assignedAt <|> doc.assignedAt,
    assignedBy := updateData.assignedBy <|> doc.assignedBy,
    notes := updateData.notes <|> doc.notes,
    notesUpdatedAt := updateData.notesUpdatedAt <|> doc.notesUpdatedAt,
    notesUpdatedBy := updateData.notesUpdatedBy <|> doc.notesUpdatedBy }

/-- The operation `findOneAndUpdate(cond, update, { new: true })` on a
collection: the first document that meets the condition is replaced by its
update; the result is the updated document and the new collection, or `none`
when no document meets the condition. -/
def findOneAndUpdate {α : Type} (cond : α → Bool) (update : α → α) :
    List α → Option (α × List α)
  | [] => none
  | a :: l =>
    if cond a then some (update a, update a :: l)
    else (findOneAndUpdate cond update l).map fun r => (r.1, a :: r.2)

/-- The operation `findOneAndDelete(cond)` on a collection: the first document
that meets the condition is removed; the result is that document and the new
collection, or `none` when no document meets the condition. -/
def findOneAndDelete {α : Type} (cond : α → Bool) : List α → Option (α × List α)
  | [] => none
  | a :: l =>
    if cond a then some (a, l)
    else (findOneAndDelete cond l).map fun r => (r.1, a :: r.2)

/-- The function `updateApplication`. -/
def updateApplication (env : Env) (req : AppRequest) (w : World) : Response × World :=
  if !truthy req.query.id then
    ({ status := 400, success := false, message := some "Application ID is required" }, w)
  else if !env.dbOk 0 then
    ({ status := 500, success := false, message := some "Failed to update application" }, w)
  else
    match findOneAndUpdate (fun a => a.id == req.query.id) (applyUpdate env.now req.body)
        w.applications with
    | none => ({ status := 404, success := false, message := some "Application not found" }, w)
    | some (application, applications) =>
      ({ status := 200, success := true, message := some "Application updated successfully",
         application := some application },
       { w with applications := applications })

/-- The function `deleteApplication`. -/
def deleteApplication (env : Env) (req : AppRequest) (w : World) : Response × World :=
  if !truthy req.query.id then
    ({ status := 400, success := false, message := some "Application ID is required" }, w)
  else if !env.dbOk 0 then
    ({ status := 500, success := false, message := some "Failed to delete application" }, w)
  else
    match findOneAndDelete (fun a => a.id == req.query.id) w.applications with
    | none => ({ status := 404, success := false, message := some "Application not found" }, w)
    | some (application, applications) =>
      ({ status := 200, success := true, message := some "Application deleted successfully",
         application := some application },
       { w with applications := applications })

namespace Applications

/-- The handler of `/api/applications`. -/
def handler (env : Env) (req : AppRequest) (w : World) : Response × World :=
  if !env.connectOk then
    ({ status := 500, success := false, message := some "Internal server error" }, w)
  else if req.method = "GET" then getApplications env req w
  else if req.method = "POST" then createApplication env req w
  else if req.method = "PUT" then updateApplication env req w
  else if req.method = "DELETE" then deleteApplication env req w
  else ({ status := 405, success := false, message := some "Method not allowed" }, w)

end Applications

/-! ## `src/api/messages.js` -/

/-- A request to `/api/messages`. -/
structure MessageRequest where
  method : String
  query : Query := {}
  deriving DecidableEq, Repr

/-- A hexadecimal digit, in either case. -/
def isHexDigit (c : Char) : Bool :=
  let n := c.toNat
  (48 ≤ n && n ≤ 57) || (65 ≤ n && n ≤ 70) || (97 ≤ n && n ≤ 102)

/-- The cast of the string given to `findByIdAndUpdate` / `findByIdAndDelete` to
the type of the `_id` path, an ObjectId: a string of 24 hexadecimal digits is
the id it spells (written here in lower case), and for any other string the
model layer throws a cast error (`none`) before it queries the database. -/
def castObjectId (s : String) : Option String :=
  if s.data.length = 24 ∧ s.data.all isHexDigit = true then some (lowercase s) else none

/-- The order of `.sort({ createdAt: -1 })` on messages. -/
def newerFirst (a b : ContactMessage) : Prop :=
  b.createdAt ≤ a.createdAt

instance : DecidableRel newerFirst := fun a b =>
  inferInstanceAs (Decidable (b.createdAt ≤ a.createdAt))

/-- The function `handleGet`. -/
def handleGet (env : Env) (w : World) : Response × World :=
  if !env.dbOk 0 then
    ({ status := 500, success := false, message := some "Error fetching messages" }, w)
  else
    ({ status := 200, success := true,
       messages := some (w.messages.insertionSort newerFirst) }, w)

/-- The function `handlePut`. -/
def handlePut (env : Env) (req : MessageRequest) (w : World) : Response × World :=
  match req.query.id with
  | none => ({ status := 400, success := false, message := some "Message ID is required" }, w)
  | some id =>
    if id = "" then
      ({ status := 400, success := false, message := some "Message ID is required" }, w)
    else
      match castObjectId id with
      | none => ({ status := 500, success := false, message := some "Error updating message" }, w)
      | some oid =>
        if !env.dbOk 0 then
          ({ status := 500, success := false, message := some "Error updating message" }, w)
        else
          match findOneAndUpdate (fun m : ContactMessage => m._id == oid)
              (fun m => { m with status := some "read" }) w.messages with
          | none =>
            ({ status := 404, success := false, message := some "Message not found" }, w)
          | some (message, messages) =>
            ({ status := 200, success := true, contactMessage := some message },
             { w with messages := messages })

/-- The function `handleDelete`. -/
def handleDelete (env : Env) (req : MessageRequest) (w : World) : Response × World :=
  match req.query.id with
  | none => ({ status := 400, success := false, message := some "Message ID is required" }, w)
  | some id =>
    if id = "" then
      ({ status := 400, success := false, message := some "Message ID is required" }, w)
    else
      match castObjectId id with
      | none => ({ status := 500, success := false, message := some "Error deleting message" }, w)
      | some oid =>
        if !env.dbOk 0 then
          ({ status := 500, success := false, message := some "Error deleting message" }, w)
        else
          match findOneAndDelete (fun m : ContactMessage => m._id == oid) w.messages with
          | none =>
            ({ status := 404, success := false, message := some "Message not found" }, w)
          | some (_, messages) =>
            ({ status := 200, success := true, message := some "Message deleted successfully" },
             { w with messages := messages })

namespace Messages

/-- The handler of `/api/messages`. -/
def handler (env : Env) (req : MessageRequest) (w : World) : Response × World :=
  if !env.connectOk then
    ({ status := 500, success := false, message := some "Internal server error" }, w)
  else if req.method = "GET" then handleGet env w
  else if req.method = "PUT" then handlePut env req w
  else if req.method = "DELETE" then handleDelete env req w
  else ({ status := 405, success := false, message := some "Method not allowed" }, w)

end Messages

/-! ## `src/api/send-email.js` -/

/-- The body of `POST /api/send-email`. -/
structure SendEmailBody where
  email : Option String := none
  name : Option String := none
  applicationType : Option String := none
  applicationId : Option String := none
  status : Option String := none
  deriving DecidableEq, Repr

/-- A request to `/api/send-email`. -/
structure SendEmailRequest where
  method : String
  body : SendEmailBody := {}
  deriving DecidableEq, Repr

/-- The characters of a string cut at every comma: `split(',')`. -/
def splitComma : List Char → List (List Char)
  | [] => [[]]
  | c :: cs =>
    if c.toNat = 44 then [] :: splitComma cs
    else
      match splitComma cs with
      | [] => [[c]]
      | first :: rest => (c :: first) :: rest

/-- The admin recipient list: `process.env.CONTACT_EMAILS` cut at the commas and
trimmed, or the built-in pair. -/
def adminRecipients (env : Env) : List String :=
  match env.contactEmails with
  | some s =>
    if s != "" then (splitComma s.data).map fun part => jsTrim ⟨part⟩
    else ["kaal55499@gmail.com", "kaalcal28@gmail.com"]
  | none => ["kaal55499@gmail.com", "kaalcal28@gmail.com"]

/-- The wording `statusText`. -/
def statusText (status : String) : String :=
  if status = "approved" then "Onaylandı" else "Reddedildi"

/-- The assignments `application.status = status` and
`application.updatedAt = new Date()`. -/
def setStatus (now : Nat) (status : String) (a : Application) : Application :=
  { a with status := some status, updatedAt := some now }

/-- The method call `replace(/\n/g, '<br>')`. -/
def replaceNewlines (s : String) : String :=
  ⟨s.data.flatMap fun c => if c.toNat = 10 then "<br>".data else [c]⟩

/-- The template `emailContent`. -/
def emailContent (env : Env) (name applicationType applicationId status : String) : String :=
  "\nSayın " ++ name ++ ",\n\nKAALCAL26 " ++ applicationType ++ " başvurunuz " ++
    statusText status ++ ".\n\nBaşvuru ID: " ++ applicationId ++ "\nDurum: " ++
    statusText status ++ "\nTarih: " ++ env.localeDate ++ "\n\n" ++
    (if status = "approved" then
      "Tebrikler! Başvurunuz onaylanmıştır. Etkinlik hakkında detaylı bilgi için e-posta adresinizi takip etmeye devam edin."
    else
      "Başvurunuz değerlendirilmiştir ancak uygun bulunmamıştır. Başka fırsatlarda görüşmek üzere.") ++
    "\n\nSaygılarımızla,\nKAALCAL26 Ekibi\n        "

/-- The mail to the applicant. -/
def applicantMail (env : Env) (email name applicationType applicationId status : String) : Mail :=
  { recipients := [email],
    subject := "KAALCAL26 Başvuru Durumu: " ++ statusText status,
    body := replaceNewlines (emailContent env name applicationType applicationId status) }

/-- The template `adminNotification`. -/
def adminNotification (email name applicationType applicationId status : String) : String :=
  "\nYeni bir başvuru güncellendi:\n\nBaşvuran: " ++ name ++ "\nE-posta: " ++ email ++
    "\nTür: " ++ applicationType ++ "\nDurum: " ++ statusText status ++ "\nID: " ++
    applicationId ++ "\n        "

/-- The mail to the admin team. -/
def adminMail (env : Env) (email name applicationType applicationId status : String) : Mail :=
  { recipients := adminRecipients env,
    subject := "Başvuru Güncellendi: " ++ statusText status ++ " - " ++ name,
    body := adminNotification email name applicationType applicationId status }

namespace SendEmail

/-- The handler of `/api/send-email`.  The database operations are `findOne`
(operation 0) and `save` (operation 1); `save` writes the two assigned paths of
the document that `findOne` returned, the first one with the given `id`. -/
def handler (env : Env) (req : SendEmailRequest) (w : World) : Response × World :=
  if req.method ≠ "POST" then
    ({ status := 405, success := false, message := some "Method not allowed" }, w)
  else if !env.connectOk then
    ({ status := 500, success := false, message := some "Internal server error" }, w)
  else
    let status := req.body.status.getD "approved"
    if !truthy req.body.email || !truthy req.body.name || !truthy req.body.applicationType ||
        !truthy req.body.applicationId then
      ({ status := 400, success := false,
         message := some "Missing required fields: email, name, applicationType, applicationId" },
       w)
    else if !env.dbOk 0 then
      ({ status := 500, success := false, message := some "Internal server error" }, w)
    else
      match findOneAndUpdate (fun a : Application => a.id == req.body.applicationId)
          (setStatus env.now status) w.applications with
      | none => ({ status := 404, success := false, message := some "Application not found" }, w)
      | some (_, applications) =>
        if !env.dbOk 1 then
          ({ status := 500, success := false, message := some "Internal server error" }, w)
        else
          let w := { w with applications := applications }
          if !env.transporterOk then
            ({ status := 500, success := false, message := some "Internal server error" }, w)
          else if !env.mailOk 0 then
            ({ status := 500, success := false, message := some "Internal server error" }, w)
          else
            let w := { w with outbox := w.outbox ++
              [applicantMail env (req.body.email.getD "") (req.body.name.getD "")
                (req.body.applicationType.getD "") (req.body.applicationId.getD "") status] }
            if !env.mailOk 1 then
              ({ status := 500, success := false, message := some "Internal server error" }, w)
            else
              let w := { w with outbox := w.outbox ++
                [adminMail env (req.body.email.getD "") (req.body.name.getD "")
                  (req.body.applicationType.getD "") (req.body.applicationId.getD "") status] }
              ({ status := 200, success := true,
                 message := some ("Application " ++ status ++ " and email sent successfully"),
                 applicationId := req.body.applicationId, applicationStatus := some status }, w)

end SendEmail

/-! ## `src/api/contact-messages.js` -/

/-- The filter object `getMessages` builds from the query, as a predicate on
documents. -/
def messageFilter (env : Env) (q : Query) (m : ContactMessage) : Bool :=
  match q.search with
  | some search =>
    if search != "" then
      regexTest env search (some m.name) || regexTest env search (some m.email) ||
        regexTest env search (some m.message)
    else true
  | none => true

/-- The database refuses the pattern of the search. -/
def searchRefused (env : Env) (q : Query) : Bool :=
  match q.search with
  | some search => search != "" && !simplePattern search && !env.regexValid search
  | none => false

/-- The function `getMessages`.  The database operations are the `find`
(operation 0) and `countDocuments` (operation 1).  With `page` 0 and a positive
`limit` the value of `skip` is negative, which the database refuses; a `limit`
of 0 is no limit, and then `pages` is not a finite number. -/
def getMessages (env : Env) (req : MessageRequest) (w : World) : Response × World :=
  let page := req.query.page.getD 1
  let limit := req.query.limit.getD 50
  if searchRefused env req.query || !env.dbOk 0 then
    ({ status := 500, success := false, message := some "Failed to fetch messages" }, w)
  else if page = 0 ∧ limit ≠ 0 then
    ({ status := 500, success := false, message := some "Failed to fetch messages" }, w)
  else
    let skip := (page - 1) * limit
    let sorted := (w.messages.filter (messageFilter env req.query)).insertionSort newerFirst
    let messages := if limit = 0 then sorted.drop skip else (sorted.drop skip).take limit
    if !env.dbOk 1 then
      ({ status := 500, success := false, message := some "Failed to fetch messages" }, w)
    else
      let total := (w.messages.filter (messageFilter env req.query)).length
      ({ status := 200, success := true, messageList := some messages,
         pagination := some { page := page, limit := limit, total := total,
                              pages := if limit = 0 then none
                                       else some ((total + limit - 1) / limit) } }, w)

/-- The function `deleteMessage`. -/
def deleteMessage (env : Env) (req : MessageRequest) (w : World) : Response × World :=
  match req.query.id with
  | none => ({ status := 400, success := false, message := some "Message ID is required" }, w)
  | some id =>
    if id = "" then
      ({ status := 400, success := false, message := some "Message ID is required" }, w)
    else
      match castObjectId id with
      | none => ({ status := 500, success := false, message := some "Failed to delete message" }, w)
      | some oid =>
        if !env.dbOk 0 then
          ({ status := 500, success := false, message := some "Failed to delete message" }, w)
        else
          match findOneAndDelete (fun m : ContactMessage => m._id == oid) w.messages with
          | none =>
            ({ status := 404, success := false, message := some "Message not found" }, w)
          | some (message, messages) =>
            ({ status := 200, success := true, message := some "Message deleted successfully",
               messageData := some message },
             { w with messages := messages })

namespace ContactMessages

/-- The handler of `/api/contact-messages`. -/
def handler (env : Env) (req : MessageRequest) (w : World) : Response × World :=
  if !env.connectOk then
    ({ status := 500, success := false, message := some "Internal server error" }, w)
  else if req.method = "GET" then getMessages env req w
  else if req.method = "DELETE" then deleteMessage env req w
  else ({ status := 405, success := false, message := some "Method not allowed" }, w)

end ContactMessages

/-! ## `src/api/health.js` -/

/-- A request to `/api/health`. -/
structure HealthRequest where
  method : String
  deriving DecidableEq, Repr

namespace Health

/-- The handler of `/api/health`.  Nothing in its `try` block can throw, so the
`catch` branch is left out. -/
def handler (env : Env) (req : HealthRequest) (w : World) : Response × World :=
  if req.method ≠ "GET" then
    ({ status := 405, success := false, message := some "Method not allowed" }, w)
  else
    ({ status := 200, success := true, message := some "KAALCAL Backend is running",
       health := some
        { timestamp := env.now,
          environment := (match env.nodeEnv with
            | some e => if e != "" then e else "development"
            | none => "development"),
          version := "1.0.0", database := "connected", email := "configured" } }, w)

end Health

/-! ## The browser: local storage

The client scripts keep their data in local storage.  An entry that holds JSON
is modelled by what `JSON.parse` makes of it, an entry that holds a counter by
the integer it spells (numbers are exact integers in the range the counters
live in, below 2^53), a flag `kaalcal_<type>_open` by its text. -/

/-- An entry of local or session storage that holds JSON text: absent (also the
empty text, which the scripts treat alike), a text that `JSON.parse` refuses,
or the text of a value. -/
inductive Stored (α : Type) where
  | absent
  | corrupt
  | value (a : α)
  deriving DecidableEq, Repr

/-- An account of the admin panel. -/
structure AdminUser where
  id : Nat
  username : String
  password : String
  role : String
  name : String
  permissions : List String
  deriving DecidableEq, Repr

/-- An application as the admin panel holds it in `this.applications`. -/
structure ClientApplication where
  id : Nat
  type : String
  fullName : String := ""
  email : String := ""
  phone : String := ""
  status : String := "pending"
  submittedAt : Nat := 0
  updatedAt : Option Nat := none
  updatedBy : Option String := none
  assignedTo : Option String := none
  assignedAt : Option Nat := none
  assignedBy : Option String := none
  notes : Option String := none
  notesUpdatedAt : Option Nat := none
  notesUpdatedBy : Option String := none
  deriving DecidableEq, Repr

/-- The settings of one application type (the key `open` is `isOpen` here). -/
structure TypeSetting where
  isOpen : Bool
  name : String
  lastUpdated : Nat
  updatedBy : String
  deriving DecidableEq, Repr

/-- The object `settings.applications`: the setting of each type, by key. -/
abbrev Settings := List (String × TypeSetting)

/-- Local storage: the keys `kaalcal_applications`, `kaalcal_users`,
`kaalcal_settings`, `kaalcal_participants`, `kaalcal_approved_delegates` and,
by type, `kaalcal_<type>_open`. -/
structure LocalStorage where
  applications : Stored (List ClientApplication) := .absent
  users : Stored (List AdminUser) := .absent
  settings : Stored Settings := .absent
  participants : Option Int := none
  approvedDelegates : Option Int := none
  typeOpen : List (String × String) := []
  deriving DecidableEq, Repr

/-- The call `localStorage.getItem('kaalcal_<type>_open')`. -/
def getOpenFlag (ls : LocalStorage) (type : String) : Option String :=
  ls.typeOpen.lookup type

/-- The call `localStorage.setItem('kaalcal_<type>_open', value)`. -/
def setOpenFlag (ls : LocalStorage) (type value : String) : LocalStorage :=
  { ls with typeOpen := (type, value) :: ls.typeOpen.filter fun e => e.1 != type }

/-- The call `localStorage.removeItem('kaalcal_<type>_open')`. -/
def removeOpenFlag (ls : LocalStorage) (type : String) : LocalStorage :=
  { ls with typeOpen := ls.typeOpen.filter fun e => e.1 != type }

/-! ## `src/public/script.js`: the participant counters -/

/-- The function `incrementParticipantCount`: the new count and the storage. -/
def incrementParticipantCount (ls : LocalStorage) : Int × LocalStorage :=
  let currentCount := ls.participants.getD 0 + 1
  (currentCount, { ls with participants := some currentCount })

/-- The function `closeDelegateApplications`. -/
def closeDelegateApplications (ls : LocalStorage) : LocalStorage :=
  setOpenFlag ls "delegate" "false"

/-- The object `getStats` returns. -/
structure Stats where
  participants : Int
  delegateApplicationsOpen : Bool
  approvedDelegates : Int
  deriving DecidableEq, Repr

namespace KAALCAL

/-- The function `KAALCAL.approveApplication`: the returned count and the
storage. -/
def approveApplication (applicationType : String) (ls : LocalStorage) : Int × LocalStorage :=
  let r := incrementParticipantCount ls
  if applicationType = "delegate" then
    let approvedDelegates := r.2.approvedDelegates.getD 0 + 1
    let ls2 := { r.2 with approvedDelegates := some approvedDelegates }
    if approvedDelegates ≥ 1000 then (r.1, closeDelegateApplications ls2) else (r.1, ls2)
  else r

/-- The function `KAALCAL.getStats`. -/
def getStats (ls : LocalStorage) : Stats :=
  { participants := ls.participants.getD 0,
    delegateApplicationsOpen := getOpenFlag ls "delegate" != some "false",
    approvedDelegates := ls.approvedDelegates.getD 0 }

/-- The function `KAALCAL.resetCounters`. -/
def resetCounters (ls : LocalStorage) : LocalStorage :=
  removeOpenFlag { ls with participants := none, approvedDelegates := none } "delegate"

end KAALCAL

/-- The storage after `k` calls of `KAALCAL.approveApplication('delegate')`. -/
def approveDelegates (k : Nat) (ls : LocalStorage) : LocalStorage :=
  (fun l => (KAALCAL.approveApplication "delegate" l).2)^[k] ls

/-! ## `src/public/admin.js`: the admin panel

The panel object, the storage it reads and writes, and what the page shows of
the three action buttons.  Rendering (`showDashboard`, `loadApplications`,
`updateStatistics`, `closeModal`, the notices) changes nothing of this state
and is left out, the elements of the admin page being taken to exist; and so is
the log `kaalcal_notifications` that `sendNotifications` appends to, which
nothing modelled here reads. -/

/-- The fields of the `AdminPanel` object and the display of the approve, reject
and assign buttons of its modal. -/
structure AdminPanel where
  currentUser : Option AdminUser := none
  applications : List ClientApplication := []
  users : List AdminUser := []
  /-- `none` before `loadStoredData` has set the field -/
  settings : Option Settings := none
  currentApplicationId : Option Nat := none
  approveBtn : Bool := false
  rejectBtn : Bool := false
  assignBtn : Bool := false
  deriving DecidableEq, Repr

/-- The admin page: the panel, local storage, the session entry
`kaalcal_admin_user`, and whether `window.KAALCAL` is defined (the page loads
`script.js`). -/
structure Page where
  panel : AdminPanel := {}
  storage : LocalStorage := {}
  session : Stored AdminUser := .absent
  kaalcal : Bool := false
  deriving DecidableEq, Repr

/-- The end of a method call: it returned, or it threw; either way with the
state it had reached. -/
inductive Run where
  | done (p : Page)
  | threw (p : Page)
  deriving DecidableEq, Repr

/-- The state a call ends in. -/
def Run.page : Run → Page
  | .done p => p
  | .threw p => p

/-- The three accounts `loadStoredData` writes into `this.users`. -/
def builtinUsers : List AdminUser :=
  [{ id := 1, username := "admin", password := "admin123", role := "Genel Koordinatör",
     name := "Genel Koordinatör", permissions := ["view", "approve", "reject", "assign", "edit"] },
   { id := 2, username := "ik_head", password := "ikh2829", role := "IK Head",
     name := "IK Yöneticisi", permissions := ["view", "approve", "reject", "assign"] },
   { id := 3, username := "ik_user", password := "ik2829", role := "IK",
     name := "IK Personeli", permissions := ["view", "approve", "reject"] }]

/-- The settings `loadStoredData` initialises when none are stored. -/
def defaultSettings (now : Nat) : Settings :=
  [("delegate", { isOpen := true, name := "Delege Başvurusu", lastUpdated := now,
                  updatedBy := "System" }),
   ("delegation", { isOpen := true, name := "Delegasyon Başvurusu", lastUpdated := now,
                    updatedBy := "System" }),
   ("team", { isOpen := false, name := "Ekip Başvurusu", lastUpdated := now,
              updatedBy := "System" })]

/-- The first element that meets the condition is replaced by its update (the
effect of `find` followed by assignments to the object found); without such an
element the list is as it was. -/
def mutateFirst {α : Type} (cond : α → Bool) (update : α → α) (l : List α) : List α :=
  match findOneAndUpdate cond update l with
  | some r => r.2
  | none => l

/-- The test `!this.currentApplicationId`. -/
def noSelection : Option Nat → Bool
  | none => true
  | some id => id == 0

namespace AdminPanel

/-- The method `loadStoredData`.  `JSON.parse` throws on a stored text that is
not JSON. -/
def loadStoredData (now : Nat) (p : Page) : Run :=
  match p.storage.applications with
  | .corrupt => .threw p
  | storedApplications =>
    let applications := match storedApplications with
      | .value a => a
      | _ => []
    let storage := match storedApplications with
      | .value _ => p.storage
      | _ => { p.storage with applications := .value [] }
    let panel := { p.panel with applications := applications, users := builtinUsers }
    let storage := { storage with users := .value builtinUsers }
    match storage.settings with
    | .corrupt => .threw { p with panel := panel, storage := storage }
    | .value settings =>
      .done { p with panel := { panel with settings := some settings }, storage := storage }
    | .absent =>
      .done { p with
        panel := { panel with settings := some (defaultSettings now) },
        storage := { storage with settings := .value (defaultSettings now) } }

/-- The method `handleLogin`, for the values of the two input fields. -/
def handleLogin (username password : String) (p : Page) : Page :=
  match p.panel.users.find? fun u => u.username == username && u.password == password with
  | some user => { p with panel := { p.panel with currentUser := some user }, session := .value user }
  | none => p

/-- The method `handleLogout`. -/
def handleLogout (p : Page) : Page :=
  { p with panel := { p.panel with currentUser := none }, session := .absent }

/-- The method `viewApplication`.  Reading `this.currentUser.permissions` throws
when nobody is logged in. -/
def viewApplication (id : Nat) (p : Page) : Run :=
  match p.panel.applications.find? fun app => app.id == id with
  | none => .done p
  | some _ =>
    let panel := { p.panel with currentApplicationId := some id }
    match panel.currentUser with
    | none => .threw { p with panel := panel }
    | some user =>
      .done { p with panel := { panel with
        approveBtn := user.permissions.contains "approve",
        rejectBtn := user.permissions.contains "reject",
        assignBtn := user.permissions.contains "assign" } }

/-- The method `deleteApplication`, for the answer to the confirmation. -/
def deleteApplication (id : Nat) (confirmed : Bool) (p : Page) : Page :=
  if confirmed then
    let applications := p.panel.applications.filter fun app => app.id != id
    { p with panel := { p.panel with applications := applications },
             storage := { p.storage with applications := .value applications } }
  else p

/-- The method `updateApplicationStatus`.  Reading `this.currentUser.name` throws
when nobody is logged in, after the status and `updatedAt` are assigned and
before anything is saved. -/
def updateApplicationStatus (now : Nat) (status : String) (p : Page) : Run :=
  if noSelection p.panel.currentApplicationId then .done p
  else
    let selected := fun app : ClientApplication => some app.id == p.panel.currentApplicationId
    match p.panel.applications.find? selected with
    | none => .done p
    | some application =>
      match p.panel.currentUser with
      | none =>
        let applications := mutateFirst selected
          (fun app => { app with status := status, updatedAt := some now }) p.panel.applications
        .threw { p with panel := { p.panel with applications := applications } }
      | some user =>
        let applications := mutateFirst selected
          (fun app => { app with status := status, updatedAt := some now,
                                 updatedBy := some user.name }) p.panel.applications
        let storage := { p.storage with applications := .value applications }
        let storage :=
          if status = "approved" ∧ p.kaalcal = true then
            (KAALCAL.approveApplication application.type storage).2
          else storage
        .done { p with panel := { p.panel with applications := applications }, storage := storage }

/-- The method `assignApplication`, for the answer to the prompt (`none` when
it is cancelled). -/
def assignApplication (now : Nat) (assignTo : Option String) (p : Page) : Run :=
  if noSelection p.panel.currentApplicationId then .done p
  else if !truthy assignTo then .done p
  else
    let selected := fun app : ClientApplication => some app.id == p.panel.currentApplicationId
    match p.panel.applications.find? selected with
    | none => .done p
    | some _ =>
      match p.panel.currentUser with
      | none =>
        let applications := mutateFirst selected
          (fun app => { app with assignedTo := assignTo, assignedAt := some now })
          p.panel.applications
        .threw { p with panel := { p.panel with applications := applications } }
      | some user =>
        let applications := mutateFirst selected
          (fun app => { app with assignedTo := assignTo, assignedAt := some now,
                                 assignedBy := some user.name }) p.panel.applications
        .done { p with panel := { p.panel with applications := applications },
                       storage := { p.storage with applications := .value applications } }

/-- The method `saveNotes`, for the text of the notes field. -/
def saveNotes (now : Nat) (notes : String) (p : Page) : Run :=
  if noSelection p.panel.currentApplicationId then .done p
  else
    let selected := fun app : ClientApplication => some app.id == p.panel.currentApplicationId
    match p.panel.applications.find? selected with
    | none => .done p
    | some _ =>
      match p.panel.currentUser with
      | none =>
        let applications := mutateFirst selected
          (fun app => { app with notes := some notes, notesUpdatedAt := some now })
          p.panel.applications
        .threw { p with panel := { p.panel with applications := applications } }
      | some user =>
        let applications := mutateFirst selected
          (fun app => { app with notes := some notes, notesUpdatedAt := some now,
                                 notesUpdatedBy := some user.name }) p.panel.applications
        .done { p with panel := { p.panel with applications := applications },
                       storage := { p.storage with applications := .value applications } }

/-- The method `canToggleApplications`. -/
def canToggleApplications (user : AdminUser) : Bool :=
  user.permissions.contains "edit"

/-- The method `toggleApplication`.  It throws when nobody is logged in, and
when the settings were never loaded. -/
def toggleApplication (now : Nat) (type : String) (p : Page) : Run :=
  match p.panel.currentUser with
  | none => .threw p
  | some user =>
    if !canToggleApplications user then .done p
    else
      match p.panel.settings with
      | none => .threw p
      | some settings =>
        match settings.lookup type with
        | none => .done p
        | some app =>
          let settings := settings.map fun e =>
            if e.1 == type then
              (e.1, { app with isOpen := !app.isOpen, lastUpdated := now, updatedBy := user.name })
            else e
          .done { p with panel := { p.panel with settings := some settings },
                         storage := { p.storage with settings := .value settings } }

end AdminPanel

/-- The actions of an admin on an opened application and on the type controls:
the approve button, the reject button, the assign button with the answer to
its prompt, the save-notes button with the text of the field, and the toggle of
an application type. -/
inductive AdminAction where
  | approve
  | reject
  | assign (assignTo : Option String)
  | saveNotes (notes : String)
  | toggle (type : String)
  deriving DecidableEq, Repr

/-- The listener of an action, run at the time `now`. -/
def AdminAction.run (now : Nat) : AdminAction → Page → Run
  | .approve, p => AdminPanel.updateApplicationStatus now "approved" p
  | .reject, p => AdminPanel.updateApplicationStatus now "rejected" p
  | .assign assignTo, p => AdminPanel.assignApplication now assignTo p
  | .saveNotes notes, p => AdminPanel.saveNotes now notes p
  | .toggle type, p => AdminPanel.toggleApplication now type p

/-- The state after a sequence of actions, each with its time; an action that
throws leaves the state it had reached. -/
def runActions : List (Nat × AdminAction) → Page → Page
  | [], p => p
  | (now, action) :: rest, p => runActions rest (action.run now p).page

/-! ## `src/public/admin.js` and `src/public/application-status.js`: is a type open -/

namespace AdminPanel

/-- The method `getApplicationStatus`: the flag `kaalcal_<type>_open` is not the
text `false`. -/
def getApplicationStatus (ls : LocalStorage) (applicationType : String) : Bool :=
  getOpenFlag ls applicationType != some "false"

/-- The method `toggleApplicationStatus`. -/
def toggleApplicationStatus (applicationType : String) (p : Page) : Page :=
  let isOpen := getOpenFlag p.storage applicationType != some "false"
  let newStatus := !isOpen
  { p with storage := setOpenFlag p.storage applicationType (if newStatus then "true" else "false") }

end AdminPanel

/-- The object `ApplicationStatusChecker`: its field `settings`, the `open`
value of each type by key, `none` while it is `null`. -/
structure ApplicationStatusChecker where
  settings : Option (List (String × Bool)) := none
  deriving DecidableEq, Repr

namespace ApplicationStatusChecker

/-- The method `loadSettings` on a new checker: `none` when `JSON.parse` throws
on the stored text. -/
def loadSettings (ls : LocalStorage) : Option ApplicationStatusChecker :=
  match ls.settings with
  | .corrupt => none
  | .value settings => some { settings := some (settings.map fun e => (e.1, e.2.isOpen)) }
  | .absent => some { settings := some [("delegate", true), ("delegation", true), ("team", false)] }

/-- The method `isApplicationOpen`. -/
def isApplicationOpen (c : ApplicationStatusChecker) (type : String) : Bool :=
  match c.settings with
  | none => false
  | some settings =>
    match settings.lookup type with
    | some isOpen => isOpen
    | none => false

end ApplicationStatusChecker

/-- An entry of the map `rateLimiters`. -/
structure Limit where
  count : Nat
  resetTime : Nat
  deriving DecidableEq, Repr

/-- The map `rateLimiters`, from keys to entries. -/
def RateLimiters : Type := String → Option Limit

/-- The method `Map.prototype.set`. -/
def RateLimiters.set (m : RateLimiters) (key : String) (limit : Limit) : RateLimiters :=
  fun k => if k = key then some limit else m k

/-- The method `checkRateLimit`, with `now` the value of `Date.now()`; the result
is the value returned and the map after the call. -/
def checkRateLimit (now : Nat) (key : String) (maxRequests windowMs : Nat) (m : RateLimiters) :
    Bool × RateLimiters :=
  match m key with
  | none => (true, m.set key { count := 1, resetTime := now + windowMs })
  | some limit =>
    if now > limit.resetTime then
      (true, m.set key { count := 1, resetTime := now + windowMs })
    else if limit.count ≥ maxRequests then (false, m)
    else (true, m.set key { limit with count := limit.count + 1 })

/-- One call of `checkRateLimit`: the time of the call and its arguments. -/
structure Call where
  now : Nat
  key : String
  maxRequests : Nat
  windowMs : Nat
  deriving DecidableEq, Repr

/-- A sequence of calls of `checkRateLimit`: the values returned, in order, and
the map after the last call. -/
def runCalls : List Call → RateLimiters → List Bool × RateLimiters
  | [], m => ([], m)
  | c :: cs, m =>
    let r := checkRateLimit c.now c.key c.maxRequests c.windowMs m
    let rs := runCalls cs r.2
    (r.1 :: rs.1, rs.2)

/-! ## `src/public/form-enhancer.js`: the password rule -/

/-- The result of a custom validation; `message` is absent when the object has
no such key. -/
structure Validation where
  valid : Bool
  message : Option String := none
  deriving DecidableEq, Repr

/-- The method `calculatePasswordStrength`: one point each for a length of at
least 8, a length of at least 12, a letter `a`-`z`, a letter `A`-`Z`, a digit
and a character that is none of these. -/
def calculatePasswordStrength (password : String) : Nat :=
  (if jsLength password ≥ 8 then 1 else 0) +
  (if jsLength password ≥ 12 then 1 else 0) +
  (if password.data.any Char.isLower then 1 else 0) +
  (if password.data.any Char.isUpper then 1 else 0) +
  (if password.data.any Char.isDigit then 1 else 0) +
  (if password.data.any (fun c => !(c.isLower || c.isUpper || c.isDigit)) then 1 else 0)

/-- The entry `password` of the custom validations of `getCustomValidation`. -/
def passwordValidation (value : String) : Validation :=
  if value = "" then { valid := true }
  else
    let strength := calculatePasswordStrength value
    { valid := decide (strength ≥ 2),
      message := some (if strength < 2 then "Şifre en az 8 karakter olmalı" else "") }

/-! ## `src/public/testing.js`: `assertThrows` -/

/-- How an asynchronous call ends: it completes, or it throws (its promise is
rejected) with an error, named by its message. -/
inductive Outcome where
  | resolved
  | rejected (error : String)
  deriving DecidableEq, Repr

/-- The statement `try { body } catch (error) { handler }`: the handler runs when
the body throws. -/
def tryCatch (body : Outcome) (handler : String → Outcome) : Outcome :=
  match body with
  | .resolved => .resolved
  | .rejected error => handler error

/-- The method `assertThrows`; `asyncFunction` is how the call
`await asyncFunction()` ends.  The `throw` that follows the call stands inside
the `try` block, and the `catch` block is empty. -/
def assertThrows (asyncFunction : Outcome) (message : Option String) : Outcome :=
  tryCatch
    (match asyncFunction with
     | .rejected error => .rejected error
     | .resolved =>
       .rejected (if truthy message then message.getD "" else "Expected function to throw"))
    (fun _ => .resolved)

/-! ## `src/public/notification-system.js` -/

/-- The options object given to `show`; an absent key is `none`, and the
`title: null` of `sticky` and `loading` is `none` as well. -/
structure NotificationOptions where
  type : Option String := none
  title : Option String := none
  message : String := ""
  icon : Option String := none
  closable : Option Bool := none
  duration : Option Nat := none
  deriving DecidableEq, Repr

/-- The object `notification.data` (its `id`, a time plus a random fraction, is
left out). -/
structure NotificationData where
  type : String
  title : Option String
  message : String
  duration : Nat
  timestamp : Nat
  deriving DecidableEq, Repr

/-- A notification: its DOM element, named by a number, and its data. -/
structure Notification where
  element : Nat
  data : NotificationData
  deriving DecidableEq, Repr

/-- What a pending `setTimeout` of the notification system does: the call
`this.close(notification)` of the auto-hide, or the removal that `close`
schedules. -/
inductive TimerAction where
  | close (element : Nat)
  | remove (element : Nat)
  deriving DecidableEq, Repr

/-- A pending `setTimeout`: the time it is due and what it does. -/
structure Timer where
  due : Nat
  action : TimerAction
  deriving DecidableEq, Repr

/-- The state of a `NotificationSystem`: the fields the constructor sets, the
elements that carry the class `hide`, and the pending timers. -/
structure NotificationSystem where
  notifications : List Notification := []
  maxNotifications : Nat := 5
  defaultDuration : Nat := 5000
  hidden : List Nat := []
  timers : List Timer := []
  deriving DecidableEq, Repr

namespace NotificationSystem

/-- The method `createNotification`, as far as the stored data go; `element` is
the node it creates. -/
def createNotification (ns : NotificationSystem) (now element : Nat)
    (options : NotificationOptions) : Notification :=
  { element := element,
    data :=
      { type := if truthy options.type then options.type.getD "" else "info",
        title := options.title,
        message := options.message,
        duration :=
          match options.duration with
          | some d => if d ≠ 0 then d else ns.defaultDuration
          | none => ns.defaultDuration,
        timestamp := now } }

/-- The method `close`: an element already hidden is left alone; otherwise it is
marked `hide` and its removal is scheduled 300 ms later. -/
def close (now element : Nat) (ns : NotificationSystem) : NotificationSystem :=
  if ns.hidden.contains element then ns
  else { ns with hidden := element :: ns.hidden,
                 timers := ns.timers ++ [{ due := now + 300, action := .remove element }] }

/-- The method `addNotification`: the oldest entries are shifted out and closed
while the list is full (`maxNotifications` is at least 1), the notification is
pushed, and when its `data.duration` is positive its close is scheduled. -/
def addNotification (now : Nat) (notification : Notification) (ns : NotificationSystem) :
    NotificationSystem :=
  let excess := ns.notifications.length + 1 - ns.maxNotifications
  let kept : NotificationSystem := { ns with notifications := ns.notifications.drop excess }
  let closed := (ns.notifications.take excess).foldl (fun s n => s.close now n.element) kept
  let pushed := { closed with notifications := closed.notifications ++ [notification] }
  if notification.data.duration > 0 then
    { pushed with timers := pushed.timers ++
        [{ due := now + notification.data.duration, action := .close notification.element }] }
  else pushed

/-- The method `show` with an options object. -/
def «show» (now element : Nat) (options : NotificationOptions) (ns : NotificationSystem) :
    NotificationSystem :=
  ns.addNotification now (ns.createNotification now element options)

/-- The method `sticky` called with a message alone. -/
def sticky (now element : Nat) (message : String) (ns : NotificationSystem) :
    NotificationSystem :=
  ns.show now element { type := some "info", title := none, message := message,
                        duration := some 0 }

/-- The method `loading` called with a message alone. -/
def loading (now element : Nat) (message : String) (ns : NotificationSystem) :
    NotificationSystem :=
  ns.show now element { type := some "info", title := none, message := message,
                        icon := some "fas fa-spinner fa-spin", closable := some false,
                        duration := some 0 }

/-- A pending timer comes due and runs. -/
def fire (t : Timer) (ns : NotificationSystem) : NotificationSystem :=
  let rest := { ns with timers := ns.timers.erase t }
  match t.action with
  | .close element => rest.close t.due element
  | .remove element =>
    { rest with notifications := rest.notifications.filter fun n => n.element != element }

end NotificationSystem

/-! ## JavaScript strings as UTF-16 code units

The regular expressions and `substring` of `security.js` work on the code units
of a string; there every JavaScript string is a list of code units, and a
`String` gives its units by `toUnits`. -/

/-- The UTF-16 code units of a string. -/
def toUnits (s : String) : List Nat :=
  s.data.flatMap fun c =>
    if c.toNat < 65536 then [c.toNat]
    else [55296 + (c.toNat - 65536) / 1024, 56320 + (c.toNat - 65536) % 1024]

/-- The code units the class `\s` matches: white space and line terminators. -/
def unitWhitespace (n : Nat) : Bool :=
  (9 ≤ n && n ≤ 13) || n == 32 || n == 160 || n == 5760 || (8192 ≤ n && n ≤ 8202) ||
    n == 8232 || n == 8233 || n == 8239 || n == 8287 || n == 12288 || n == 65279

/-! ## `src/public/security.js`: `validateEmail` -/

/-- The code units as the pattern of `validateEmail` tells them apart: `@`, the
dot, white space, and all others. -/
inductive UnitClass where
  | atSign
  | dot
  | space
  | other
  deriving DecidableEq, Repr

/-- The class of a code unit. -/
def classOf (u : Nat) : UnitClass :=
  if u = 64 then .atSign
  else if u = 46 then .dot
  else if unitWhitespace u then .space
  else .other

/-- The class `[^\s@]`: a dot or another unit that is neither white space nor `@`. -/
def notSpaceOrAt : RegularExpression UnitClass :=
  .plus (.char .dot) (.char .other)

/-- The quantifier `+`. -/
def oneOrMore (r : RegularExpression UnitClass) : RegularExpression UnitClass :=
  .comp r (.star r)

/-- The pattern `/^[^\s@]+@[^\s@]+\.[^\s@]+$/`, matched against the whole string. -/
def emailRegex : RegularExpression UnitClass :=
  .comp (oneOrMore notSpaceOrAt)
    (.comp (.char .atSign)
      (.comp (oneOrMore notSpaceOrAt)
        (.comp (.char .dot) (oneOrMore notSpaceOrAt))))

/-- The method `validateEmail` on a string, given by its code units. -/
def validateEmail (value : List Nat) : Validation :=
  let valid := emailRegex.rmatch (value.map classOf)
  { valid := valid,
    message := if valid then none else some "Geçerli bir e-posta adresi girin" }

/-! ## `src/public/security.js`: `sanitizeText` -/

/-- The method `String.prototype.trim` on code units. -/
def trimUnits (s : List Nat) : List Nat :=
  ((s.dropWhile unitWhitespace).reverse.dropWhile unitWhitespace).reverse

/-- A call `replace(pattern, '')` with a global pattern that matches no empty
string: the string is read from the left; where the pattern matches, the match
is left out and reading goes on behind it, and a unit where it does not match is
kept.  `matchAt` gives the length of the match of the pattern at the start of
the rest of the string; the first argument counts the units of a match still to
be left out. -/
def removeMatches (matchAt : List Nat → Option Nat) : Nat → List Nat → List Nat
  | _, [] => []
  | skip + 1, _ :: rest => removeMatches matchAt skip rest
  | 0, u :: rest =>
    match matchAt (u :: rest) with
    | some n => removeMatches matchAt (n - 1) rest
    | none => u :: removeMatches matchAt 0 rest

/-- The canonical form of a code unit under the flag `i`, as far as the ASCII
letters go: an uppercase ASCII letter is its lowercase letter. -/
def lowerUnit (u : Nat) : Nat :=
  if 65 ≤ u ∧ u ≤ 90 then u + 32 else u

/-- The pattern `/javascript:/gi` at the start of the string: the length of the
match. -/
def matchJavascript (s : List Nat) : Option Nat :=
  if (s.take 11).map lowerUnit = toUnits "javascript:" then some 11 else none

/-- The class `\w`: the ASCII letters, the digits and the underscore. -/
def isWordUnit (u : Nat) : Bool :=
  (97 ≤ u && u ≤ 122) || (65 ≤ u && u ≤ 90) || (48 ≤ u && u ≤ 57) || u == 95

/-- The pattern `/on\w+=/gi` at the start of the string: `o`, `n`, the longest
run of word units, which must not be empty, and `=` (a shorter run is followed
by a word unit, not by `=`). -/
def matchHandler (s : List Nat) : Option Nat :=
  match s with
  | o :: n :: rest =>
    let run := rest.takeWhile isWordUnit
    if lowerUnit o = 111 ∧ lowerUnit n = 110 ∧ run ≠ [] ∧
        (rest.drop run.length).head? = some 61 then
      some (run.length + 3)
    else none
  | _ => none

/-- The method `sanitizeText`; the input is the code units of a string, or
`none` for a value that is not a string, and the result is the code units of the
string returned. -/
def sanitizeText (input : Option (List Nat)) : List Nat :=
  match input with
  | none => []
  | some s =>
    (removeMatches matchHandler 0
      (removeMatches matchJavascript 0
        ((trimUnits s).filter fun u => !(u == 60 || u == 62)))).take 1000

/-! ## Notions of the specification -/

instance : IsTotal Application createdAtDesc :=
  ⟨fun a b => Nat.le_total (createdAtKey b) (createdAtKey a)⟩

instance : IsTrans Application createdAtDesc :=
  ⟨fun _ _ _ h1 h2 => Nat.le_trans h2 h1⟩

/-- The envelope of a response: `success` is true exactly when the HTTP status
is 200 or 201. -/
def envelopeOk (r : Response) : Prop :=
  r.success = true ↔ (r.status = 200 ∨ r.status = 201)

/-- One step of the status workflow of an application: the same application,
with the status it had or one of `approved` and `rejected`. -/
def statusStep (a b : ClientApplication) : Prop :=
  b.id = a.id ∧ (b.status = a.status ∨ b.status = "approved" ∨ b.status = "rejected")

/-- The workflow is one-way between two states of an application: a pending
application is pending, approved or rejected afterwards, and one that is not
pending is not pending afterwards. -/
def oneWay (a b : ClientApplication) : Prop :=
  b.id = a.id ∧
  (a.status = "pending" →
    b.status = "pending" ∨ b.status = "approved" ∨ b.status = "rejected") ∧
  (a.status ≠ "pending" → b.status ≠ "pending")

/-- The states of the admin page that a browser with empty storage reaches: the
panel is constructed (`loadStoredData`), somebody logs in, and types are
toggled through `toggleApplication` and `toggleApplicationStatus`. -/
inductive Reachable : Page → Prop where
  | start (now : Nat) : Reachable (AdminPanel.loadStoredData now {}).page
  | login (username password : String) {p : Page} :
      Reachable p → Reachable (AdminPanel.handleLogin username password p)
  | toggle (now : Nat) (type : String) {p : Page} :
      Reachable p → Reachable (AdminPanel.toggleApplication now type p).page
  | toggleStatus (type : String) {p : Page} :
      Reachable p → Reachable (AdminPanel.toggleApplicationStatus type p)

instance : IsTotal ContactMessage newerFirst :=
  ⟨fun a b => Nat.le_total b.createdAt a.createdAt⟩

instance : IsTrans ContactMessage newerFirst :=
  ⟨fun _ _ _ h1 h2 => Nat.le_trans h2 h1⟩

/-- The values returned to the calls for the key, in order, in a sequence of
calls. -/
def outcomesFor (key : String) (calls : List Call) (m : RateLimiters) : List Bool :=
  ((calls.zip (runCalls calls m).1).filter fun p => p.1.key == key).map Prod.snd

/-- The number of calls for the key in a sequence of calls. -/
def callsFor (key : String) (calls : List Call) : Nat :=
  (calls.filter fun c => c.key == key).length

/-- A part of an address: not empty, without white space and without `@`. -/
def addressPart (part : List Nat) : Prop :=
  part ≠ [] ∧ ∀ u ∈ part, unitWhitespace u = false ∧ u ≠ 64

/-! ## Concrete environments and requests -/

/-- An environment in which the database and the mail relay answer every call. -/
def envUp : Env :=
  { now := 1700000000000, connectOk := true, dbOk := fun _ => true,
    freshId := "650000000000000000000001", transporterOk := true, mailOk := fun _ => true,
    contactEmails := none, caseFold := Char.toLower,
    regexValid := fun _ => true, regexEngine := fun _ _ => false }

/-- The environment `envUp` with an unreachable mail relay. -/
def envMailDown : Env :=
  { envUp with transporterOk := false, mailOk := fun _ => false }

/-- A contact submission whose message has five characters. -/
def shortMessageRequest : ContactRequest :=
  { method := "POST",
    body := { name := some "Ayşe Yılmaz", email := some "a@x.com", message := some "Hello" } }

/-- Three stored applications. -/
def sampleApplications : List Application :=
  [{ id := some "A1", type := some "delegate", fullName := some "Ali Veli",
     email := some "ali@example.com", status := some "approved", createdAt := some 100 },
   { id := some "A2", type := some "team", fullName := some "Ayşe Yılmaz",
     email := some "ayse@example.com", status := some "pending", createdAt := some 300 },
   { id := some "A3", type := some "delegate", fullName := some "Can Öz",
     email := some "can@example.com", status := some "approved", createdAt := some 200 }]

/-- A database holding the three applications. -/
def sampleWorld : World :=
  { applications := sampleApplications }

/-- Two stored contact messages. -/
def sampleMessages : List ContactMessage :=
  [{ _id := "650000000000000000000a01", name := "Ali Veli", email := "ali@example.com",
     message := "Merhaba, bilgi almak istiyorum.", status := some "unread", createdAt := 100 },
   { _id := "650000000000000000000a02", name := "Can Öz", email := "can@example.com",
     message := "Etkinlik ne zaman başlıyor?", status := some "unread", createdAt := 200 }]

/-- A database holding the two messages. -/
def inboxWorld : World :=
  { messages := sampleMessages }

/-- The request `DELETE /api/messages?id=650000000000000000000A01` (the id of the
first sample message, written with a capital digit). -/
def deleteFirstRequest : MessageRequest :=
  { method := "DELETE", query := { id := some "650000000000000000000A01" } }

/-- The request `POST /api/send-email` that rejects the sample application `A2`. -/
def notifyRejectRequest : SendEmailRequest :=
  { method := "POST",
    body := { email := some "ayse@example.com", name := some "Ayşe Yılmaz",
              applicationType := some "team", applicationId := some "A2",
              status := some "rejected" } }

/-- The page of a panel under construction (no user, no application, no account
yet) over a local storage whose `kaalcal_applications` entry is not JSON. -/
def corruptApplicationsPage : Page :=
  { storage := { applications := .corrupt } }

/-- An account with the permission `view` only. -/
def viewerUser : AdminUser :=
  { id := 9, username := "viewer", password := "viewer1", role := "Viewer", name := "Gözlemci",
    permissions := ["view"] }

/-- A pending delegate application. -/
def pendingApplication : ClientApplication :=
  { id := 7, type := "delegate", fullName := "Ali Veli", email := "ali@example.com",
    status := "pending", submittedAt := 100 }

/-- The page on which the account `viewer` has the pending application selected. -/
def viewerPage : Page :=
  { panel := { currentUser := some viewerUser, applications := [pendingApplication],
               users := builtinUsers, currentApplicationId := some 7 },
    storage := { applications := .value [pendingApplication] } }

/-- The built-in account `ik_user`, which has no permission `assign`. -/
def ikUser : AdminUser :=
  { id := 3, username := "ik_user", password := "ik2829", role := "IK", name := "IK Personeli",
    permissions := ["view", "approve", "reject"] }

/-- The page on which `ik_user` has the pending application selected. -/
def ikUserPage : Page :=
  { viewerPage with panel := { viewerPage.panel with currentUser := some ikUser } }

/-- The built-in account `admin`. -/
def adminUser : AdminUser :=
  { id := 1, username := "admin", password := "admin123", role := "Genel Koordinatör",
    name := "Genel Koordinatör", permissions := ["view", "approve", "reject", "assign", "edit"] }

/-- The page on which `admin` is logged in over the default settings. -/
def adminPage : Page :=
  { panel := { currentUser := some adminUser, applications := [pendingApplication],
               users := builtinUsers, settings := some (defaultSettings 100) },
    storage := { applications := .value [pendingApplication],
                 settings := .value (defaultSettings 100) } }

/-- Four submissions of the form `contactForm` within a minute, limit 2, with a
call for another key in between. -/
def sampleCalls : List Call :=
  [{ now := 1010, key := "contactForm", maxRequests := 2, windowMs := 60000 },
   { now := 1020, key := "applications", maxRequests := 100, windowMs := 60000 },
   { now := 30000, key := "contactForm", maxRequests := 2, windowMs := 60000 },
   { now := 61000, key := "contactForm", maxRequests := 2, windowMs := 60000 }]

/-! ## Lemmas on strings -/

/-- C1 (defect): the submission with the five-character message violates the
message bound of `validateContact` (whatever the address check is), yet the
handler, which never runs `validateContact`, answers 201 with success true and
no field errors, and the message is stored. -/
theorem contact_short_message_is_stored :
    (∀ isEmail, ⟨"message", "Message must be between 10 and 1000 characters"⟩ ∈
        validateContact isEmail shortMessageRequest.body) ∧
    (Contact.handler envUp shortMessageRequest {}).1.status = 201 ∧
    (Contact.handler envUp shortMessageRequest {}).1.success = true ∧
    (Contact.handler envUp shortMessageRequest {}).1.errors = [] ∧
    (Contact.handler envUp shortMessageRequest {}).2.messages =
      [{ _id := "650000000000000000000001", name := "Ayşe Yılmaz", email := "a@x.com",
         message := "Hello", status := some "unread", createdAt := 1700000000000 }] := by
  refine ⟨?_, by decide, by decide, by decide, by decide⟩
  intro isEmail
  simp only [validateContact, List.mem_append]
  right
  decide

theorem findOneAndUpdate_split {α : Type} (cond : α → Bool) (update : α → α)
    (pre : List α) (a : α) (post : List α)
    (hpre : ∀ b ∈ pre, cond b = false) (ha : cond a = true) :
    findOneAndUpdate cond update (pre ++ a :: post) =
      some (update a, pre ++ update a :: post) := by
  induction pre with
  | nil => simp [findOneAndUpdate, ha]
  | cons b pre ih =>
    have hb : cond b = false := hpre b (List.mem_cons_self _ _)
    simp [findOneAndUpdate, hb, ih (fun c hc => hpre c (List.mem_cons_of_mem _ hc))]

theorem truthy_some {x : String} (hx : x ≠ "") : truthy (some x) = true := by
  simp [truthy, hx]

theorem findOneAndDelete_none {α : Type} (cond : α → Bool) (l : List α)
    (h : ∀ a ∈ l, cond a = false) : findOneAndDelete cond l = none := by
  induction l with
  | nil => rfl
  | cons a l ih =>
    have ha : cond a = false := h a (List.mem_cons_self _ _)
    simp [findOneAndDelete, ha, ih (fun b hb => h b (List.mem_cons_of_mem _ hb))]

theorem findOneAndDelete_split {α : Type} (cond : α → Bool)
    (pre : List α) (a : α) (post : List α)
    (hpre : ∀ b ∈ pre, cond b = false) (ha : cond a = true) :
    findOneAndDelete cond (pre ++ a :: post) = some (a, pre ++ post) := by
  induction pre with
  | nil => simp [findOneAndDelete, ha]
  | cons b pre ih =>
    have hb : cond b = false := hpre b (List.mem_cons_self _ _)
    simp [findOneAndDelete, hb, ih (fun c hc => hpre c (List.mem_cons_of_mem _ hc))]

theorem castObjectId_ne_empty {y oid : String} (h : castObjectId y = some oid) : y ≠ "" := by
  intro hy
  subst hy
  simp [castObjectId] at h

/-- C7: for a stored message `m` whose `_id` the query id `Y` spells (ids are
unique in the collection), with the database reachable, a first DELETE of
`/api/messages?id=Y` answers 200 with success true and removes `m` and nothing
else, and a second DELETE with the same `Y` answers 404 with success false and
leaves the database as the first call left it. -/
theorem delete_message_twice (env1 env2 : Env) (req : MessageRequest) (w : World)
    (y oid : String) (pre : List ContactMessage) (m : ContactMessage)
    (post : List ContactMessage)
    (hmethod : req.method = "DELETE") (hid : req.query.id = some y)
    (hcast : castObjectId y = some oid)
    (hsplit : w.messages = pre ++ m :: post) (hm : m._id = oid)
    (hunique : ∀ b ∈ pre ++ post, b._id ≠ oid)
    (hconn1 : env1.connectOk = true) (hdb1 : env1.dbOk 0 = true)
    (hconn2 : env2.connectOk = true) (hdb2 : env2.dbOk 0 = true) :
    Messages.handler env1 req w =
      ({ status := 200, success := true, message := some "Message deleted successfully" },
       { w with messages := pre ++ post }) ∧
    Messages.handler env2 req (Messages.handler env1 req w).2 =
      ({ status := 404, success := false, message := some "Message not found" },
       (Messages.handler env1 req w).2) := by
  have hne : y ≠ "" := castObjectId_ne_empty hcast
  have hmeth : req.method ≠ "GET" ∧ req.method ≠ "PUT" := by rw [hmethod]; decide
  have hpre : ∀ b ∈ pre, (b._id == oid) = false := fun b hb => by
    simpa using hunique b (List.mem_append_left _ hb)
  have h1 : findOneAndDelete (fun b : ContactMessage => b._id == oid) (pre ++ m :: post) =
      some (m, pre ++ post) :=
    findOneAndDelete_split _ pre m post hpre (by simpa using hm)
  have h2 : findOneAndDelete (fun b : ContactMessage => b._id == oid) (pre ++ post) = none :=
    findOneAndDelete_none _ _ (fun b hb => by simpa using hunique b hb)
  have hfirst : Messages.handler env1 req w =
      ({ status := 200, success := true, message := some "Message deleted successfully" },
       { w with messages := pre ++ post }) := by
    simp [Messages.handler, hconn1, hmeth, hmethod, handleDelete, hid, hne, hcast, hdb1,
      hsplit, h1]
  refine ⟨hfirst, ?_⟩
  rw [hfirst]
  simp [Messages.handler, hconn2, hmeth, hmethod, handleDelete, hid, hne, hcast, hdb2, h2]

/-- Witness of C7: the first sample message deleted twice. -/
theorem delete_message_twice_witness :
    (Messages.handler envUp deleteFirstRequest inboxWorld =
      ({ status := 200, success := true, message := some "Message deleted successfully" },
       { inboxWorld with messages := [] ++
          [{ _id := "650000000000000000000a02", name := "Can Öz", email := "can@example.com",
             message := "Etkinlik ne zaman başlıyor?", status := some "unread",
             createdAt := 200 }] }) ∧
    Messages.handler envMailDown deleteFirstRequest
        (Messages.handler envUp deleteFirstRequest inboxWorld).2 =
      ({ status := 404, success := false, message := some "Message not found" },
       (Messages.handler envUp deleteFirstRequest inboxWorld).2)) :=
  delete_message_twice envUp envMailDown deleteFirstRequest inboxWorld
    "650000000000000000000A01" "650000000000000000000a01" []
    { _id := "650000000000000000000a01", name := "Ali Veli", email := "ali@example.com",
      message := "Merhaba, bilgi almak istiyorum.", status := some "unread", createdAt := 100 }
    [{ _id := "650000000000000000000a02", name := "Can Öz", email := "can@example.com",
       message := "Etkinlik ne zaman başlıyor?", status := some "unread", createdAt := 200 }]
    rfl rfl (by decide) rfl rfl (by decide) rfl rfl rfl rfl

/-- C10: a POST to `/api/send-email` that gives the four required fields and the
`id` of a stored application, the lookup and the save resolving: whatever
happens to the transporter and the two sends, the database afterwards holds the
first application with that id with `status` the requested status (`approved`
when the body has none) and `updatedAt` the current time, the others as they
were; and when the transporter or one of the sends fails the answer is 500 with
success false, the update kept. -/
theorem send_email_keeps_status_update (env : Env) (req : SendEmailRequest) (w : World)
    (pre : List Application) (a : Application) (post : List Application)
    (hmethod : req.method = "POST") (hconn : env.connectOk = true)
    (h1 : truthy req.body.email = true) (h2 : truthy req.body.name = true)
    (h3 : truthy req.body.applicationType = true) (h4 : truthy req.body.applicationId = true)
    (hfind : env.dbOk 0 = true) (hsave : env.dbOk 1 = true)
    (hsplit : w.applications = pre ++ a :: post)
    (hpre : ∀ b ∈ pre, b.id ≠ req.body.applicationId) (ha : a.id = req.body.applicationId) :
    (SendEmail.handler env req w).2.applications =
      pre ++ { a with status := some (req.body.status.getD "approved"),
                      updatedAt := some env.now } :: post ∧
    (SendEmail.handler env req w).2.messages = w.messages ∧
    (env.transporterOk = false → (SendEmail.handler env req w).2.outbox = w.outbox) ∧
    ((env.transporterOk = false ∨ env.mailOk 0 = false ∨ env.mailOk 1 = false) →
      (SendEmail.handler env req w).1 =
        { status := 500, success := false, message := some "Internal server error" }) := by
  have hupd := findOneAndUpdate_split (fun b : Application => b.id == req.body.applicationId)
    (setStatus env.now (req.body.status.getD "approved")) pre a post
    (fun b hb => by simpa using hpre b hb) (by simpa using ha)
  rw [← hsplit] at hupd
  refine ⟨?_, ?_, ?_, ?_⟩
  · cases ht : env.transporterOk <;> cases hm0 : env.mailOk 0 <;> cases hm1 : env.mailOk 1 <;>
      simp [SendEmail.handler, hmethod, hconn, h1, h2, h3, h4, hfind, hsave, hupd, ht, hm0, hm1,
        setStatus]
  · cases ht : env.transporterOk <;> cases hm0 : env.mailOk 0 <;> cases hm1 : env.mailOk 1 <;>
      simp [SendEmail.handler, hmethod, hconn, h1, h2, h3, h4, hfind, hsave, hupd, ht, hm0, hm1]
  · intro ht
    simp [SendEmail.handler, hmethod, hconn, h1, h2, h3, h4, hfind, hsave, hupd, ht]
  · intro h
    cases ht : env.transporterOk <;> cases hm0 : env.mailOk 0 <;> cases hm1 : env.mailOk 1 <;>
      first
      | (exfalso; simp [ht, hm0, hm1] at h; done)
      | simp [SendEmail.handler, hmethod, hconn, h1, h2, h3, h4, hfind, hsave, hupd, ht, hm0, hm1]

/-- Witness of C10: the sample application `A2` rejected while the mail relay is
down. -/
theorem send_email_keeps_status_update_witness :
    ((SendEmail.handler envMailDown notifyRejectRequest sampleWorld).2.applications =
      [{ id := some "A1", type := some "delegate", fullName := some "Ali Veli",
         email := some "ali@example.com", status := some "approved", createdAt := some 100 }] ++
      { id := some "A2", type := some "team", fullName := some "Ayşe Yılmaz",
        email := some "ayse@example.com", status := some "rejected", createdAt := some 300,
        updatedAt := some envMailDown.now } ::
      [{ id := some "A3", type := some "delegate", fullName := some "Can Öz",
         email := some "can@example.com", status := some "approved", createdAt := some 200 }] ∧
    (SendEmail.handler envMailDown notifyRejectRequest sampleWorld).2.messages =
      sampleWorld.messages ∧
    (envMailDown.transporterOk = false →
      (SendEmail.handler envMailDown notifyRejectRequest sampleWorld).2.outbox =
        sampleWorld.outbox) ∧
    ((envMailDown.transporterOk = false ∨ envMailDown.mailOk 0 = false ∨
        envMailDown.mailOk 1 = false) →
      (SendEmail.handler envMailDown notifyRejectRequest sampleWorld).1 =
        { status := 500, success := false, message := some "Internal server error" })) ∧
    (SendEmail.handler envMailDown notifyRejectRequest sampleWorld).1.status = 500 :=
  ⟨send_email_keeps_status_update envMailDown notifyRejectRequest sampleWorld
    [{ id := some "A1", type := some "delegate", fullName := some "Ali Veli",
       email := some "ali@example.com", status := some "approved", createdAt := some 100 }]
    { id := some "A2", type := some "team", fullName := some "Ayşe Yılmaz",
      email := some "ayse@example.com", status := some "pending", createdAt := some 300 }
    [{ id := some "A3", type := some "delegate", fullName := some "Can Öz",
       email := some "can@example.com", status := some "approved", createdAt := some 200 }]
    rfl rfl rfl rfl rfl rfl rfl rfl rfl (by decide) rfl, by decide⟩

theorem envelopeOk_getApplications (env : Env) (req : AppRequest) (w : World) :
    envelopeOk (getApplications env req w).1 := by
  unfold getApplications
  repeat' split
  all_goals simp [envelopeOk]

theorem envelopeOk_createApplication (env : Env) (req : AppRequest) (w : World) :
    envelopeOk (createApplication env req w).1 := by
  unfold createApplication
  repeat' split
  all_goals simp [envelopeOk]

theorem envelopeOk_updateApplication (env : Env) (req : AppRequest) (w : World) :
    envelopeOk (updateApplication env req w).1 := by
  unfold updateApplication
  repeat' split
  all_goals simp [envelopeOk]

theorem envelopeOk_deleteApplication (env : Env) (req : AppRequest) (w : World) :
    envelopeOk (deleteApplication env req w).1 := by
  unfold deleteApplication
  repeat' split
  all_goals simp [envelopeOk]

theorem envelopeOk_handleGet (env : Env) (w : World) : envelopeOk (handleGet env w).1 := by
  unfold handleGet
  repeat' split
  all_goals simp [envelopeOk]

theorem envelopeOk_handlePut (env : Env) (req : MessageRequest) (w : World) :
    envelopeOk (handlePut env req w).1 := by
  unfold handlePut
  repeat' split
  all_goals simp [envelopeOk]

theorem envelopeOk_handleDelete (env : Env) (req : MessageRequest) (w : World) :
    envelopeOk (handleDelete env req w).1 := by
  unfold handleDelete
  repeat' split
  all_goals simp [envelopeOk]

theorem envelopeOk_getMessages (env : Env) (req : MessageRequest) (w : World) :
    envelopeOk (getMessages env req w).1 := by
  unfold getMessages
  by_cases h1 : (searchRefused env req.query || !env.dbOk 0) = true
  · simp [envelopeOk, h1]
  · by_cases h2 : req.query.page.getD 1 = 0 ∧ req.query.limit.getD 50 ≠ 0
    · simp [envelopeOk, h1, h2]
    · by_cases h3 : (!env.dbOk 1) = true
      · simp only [h1, h2, h3, if_true, if_false, envelopeOk]
        simp
      · simp only [h1, h2, h3, if_false, envelopeOk]
        simp

theorem envelopeOk_deleteMessage (env : Env) (req : MessageRequest) (w : World) :
    envelopeOk (deleteMessage env req w).1 := by
  unfold deleteMessage
  repeat' split
  all_goals simp [envelopeOk]

/-- C13: every response of the six handlers, for every request, every database
content and every outcome of the database and mail calls, carries a `success`
flag that is true exactly when the HTTP status is 200 or 201. -/
theorem every_response_has_envelope (env : Env) (w : World) :
    (∀ req, envelopeOk (Applications.handler env req w).1) ∧
    (∀ req, envelopeOk (Contact.handler env req w).1) ∧
    (∀ req, envelopeOk (ContactMessages.handler env req w).1) ∧
    (∀ req, envelopeOk (Messages.handler env req w).1) ∧
    (∀ req, envelopeOk (SendEmail.handler env req w).1) ∧
    (∀ req, envelopeOk (Health.handler env req w).1) := by
  refine ⟨?_, ?_, ?_, ?_, ?_, ?_⟩
  · intro req
    unfold Applications.handler
    repeat' split
    all_goals
      first
      | exact envelopeOk_getApplications env req w
      | exact envelopeOk_createApplication env req w
      | exact envelopeOk_updateApplication env req w
      | exact envelopeOk_deleteApplication env req w
      | simp [envelopeOk]
  · intro req
    unfold Contact.handler
    repeat' (first | split | (dsimp only; split))
    all_goals simp [envelopeOk]
  · intro req
    unfold ContactMessages.handler
    repeat' split
    all_goals
      first
      | exact envelopeOk_getMessages env req w
      | exact envelopeOk_deleteMessage env req w
      | simp [envelopeOk]
  · intro req
    unfold Messages.handler
    repeat' split
    all_goals
      first
      | exact envelopeOk_handleGet env w
      | exact envelopeOk_handlePut env req w
      | exact envelopeOk_handleDelete env req w
      | simp [envelopeOk]
  · intro req
    unfold SendEmail.handler
    repeat' (first | split | (dsimp only; split))
    all_goals simp [envelopeOk]
  · intro req
    unfold Health.handler
    repeat' split
    all_goals simp [envelopeOk]

/-- C14: a GET of `/api/health` is answered 200 with success true, the database
reported `connected` and the mail service `configured`, for every outcome the
database and the mail relay would give: the handler asks neither, the response
is the same in any two environments that agree on the clock and `NODE_ENV`, and
the database and the outbox are returned as they were. -/
theorem health_always_ok (env : Env) (w : World) :
    (Health.handler env { method := "GET" } w).1.status = 200 ∧
    (Health.handler env { method := "GET" } w).1.success = true ∧
    ((Health.handler env { method := "GET" } w).1.health.map fun h => (h.database, h.email)) =
      some ("connected", "configured") ∧
    (Health.handler env { method := "GET" } w).2 = w ∧
    (∀ env2 : Env, ∀ w2 : World, env2.now = env.now → env2.nodeEnv = env.nodeEnv →
      (Health.handler env2 { method := "GET" } w2).1 =
        (Health.handler env { method := "GET" } w).1) := by
  refine ⟨by simp [Health.handler], by simp [Health.handler], by simp [Health.handler],
    by simp [Health.handler], ?_⟩
  intro env2 w2 h1 h2
  simp [Health.handler, h1, h2]

/-! ## Theorems: the participant counters -/

theorem lookup_filter_ne (t : String) (l : List (String × String)) :
    (l.filter fun e => e.1 != t).lookup t = none := by
  induction l with
  | nil => rfl
  | cons e l ih =>
    obtain ⟨k, v⟩ := e
    by_cases h : k = t
    · rw [List.filter_cons, if_neg (by simp [h])]
      exact ih
    · have h2 : (t == k) = false := by simpa using fun h3 : t = k => h h3.symm
      rw [List.filter_cons, if_pos (by simp [h]), List.lookup_cons, h2]
      exact ih

theorem getOpenFlag_setOpenFlag (ls : LocalStorage) (t v : String) :
    getOpenFlag (setOpenFlag ls t v) t = some v := by
  simp [getOpenFlag, setOpenFlag, List.lookup]

theorem getOpenFlag_removeOpenFlag (ls : LocalStorage) (t : String) :
    getOpenFlag (removeOpenFlag ls t) t = none := by
  simp only [getOpenFlag, removeOpenFlag]
  exact lookup_filter_ne t ls.typeOpen

theorem approveDelegates_succ (k : Nat) (ls : LocalStorage) :
    approveDelegates (k + 1) ls =
      (KAALCAL.approveApplication "delegate" (approveDelegates k ls)).2 := by
  unfold approveDelegates
  rw [Function.iterate_succ_apply']

theorem approveDelegates_from_reset (k : Nat) (ls : LocalStorage)
    (h1 : ls.approvedDelegates = none) (h2 : getOpenFlag ls "delegate" = none) :
    (approveDelegates k ls).approvedDelegates.getD 0 = (k : Int) ∧
    (k < 1000 → getOpenFlag (approveDelegates k ls) "delegate" = none) ∧
    (1000 ≤ k → getOpenFlag (approveDelegates k ls) "delegate" = some "false") := by
  induction k with
  | zero =>
    refine ⟨?_, ?_, ?_⟩
    · simp [approveDelegates, h1]
    · intro _
      simpa [approveDelegates] using h2
    · intro h
      omega
  | succ k ih =>
    obtain ⟨ih1, ih2, ih3⟩ := ih
    rw [approveDelegates_succ]
    have hstep : ∀ l : LocalStorage,
        (KAALCAL.approveApplication "delegate" l).2 =
          if l.approvedDelegates.getD 0 + 1 ≥ 1000 then
            closeDelegateApplications
              { l with participants := some (l.participants.getD 0 + 1),
                       approvedDelegates := some (l.approvedDelegates.getD 0 + 1) }
          else
            { l with participants := some (l.participants.getD 0 + 1),
                     approvedDelegates := some (l.approvedDelegates.getD 0 + 1) } := by
      intro l
      unfold KAALCAL.approveApplication incrementParticipantCount
      dsimp only
      rw [if_pos rfl]
      split_ifs <;> rfl
    rw [hstep, ih1]
    by_cases hk : (k : Int) + 1 ≥ 1000
    · rw [if_pos hk]
      refine ⟨?_, ?_, ?_⟩
      · simp [closeDelegateApplications, setOpenFlag]
      · intro h
        omega
      · intro _
        exact getOpenFlag_setOpenFlag _ _ _
    · rw [if_neg hk]
      refine ⟨?_, ?_, ?_⟩
      · simp
      · intro _
        have := ih2 (by omega)
        simpa [getOpenFlag] using this
      · intro h
        omega

/-- C18: with `n` the stored count of approved delegates (0 when absent), after
`KAALCAL.approveApplication('delegate')` the flag `kaalcal_delegate_open` is
`false`, and `getStats().delegateApplicationsOpen` is false, whenever
`n + 1 >= 1000`, and every flag is as it was whenever `n + 1 < 1000`;
`approveApplication` with another type changes no flag.  From reset counters
the delegate flag is open after 999 delegate approvals and closed after the
1000th. -/
theorem delegate_flag_closes_at_limit (ls : LocalStorage) (type : String) :
    (ls.approvedDelegates.getD 0 + 1 ≥ 1000 →
      getOpenFlag (KAALCAL.approveApplication "delegate" ls).2 "delegate" = some "false" ∧
      (KAALCAL.getStats (KAALCAL.approveApplication "delegate" ls).2).delegateApplicationsOpen
        = false) ∧
    (ls.approvedDelegates.getD 0 + 1 < 1000 →
      (KAALCAL.approveApplication "delegate" ls).2.typeOpen = ls.typeOpen) ∧
    (type ≠ "delegate" → (KAALCAL.approveApplication type ls).2.typeOpen = ls.typeOpen) ∧
    (KAALCAL.getStats (approveDelegates 999 (KAALCAL.resetCounters ls))).delegateApplicationsOpen
      = true ∧
    (KAALCAL.getStats (approveDelegates 1000 (KAALCAL.resetCounters ls))).delegateApplicationsOpen
      = false := by
  have hreset1 : (KAALCAL.resetCounters ls).approvedDelegates = none := rfl
  have hreset2 : getOpenFlag (KAALCAL.resetCounters ls) "delegate" = none :=
    getOpenFlag_removeOpenFlag _ _
  refine ⟨?_, ?_, ?_, ?_, ?_⟩
  · intro h
    have hflag : getOpenFlag (KAALCAL.approveApplication "delegate" ls).2 "delegate" =
        some "false" := by
      unfold KAALCAL.approveApplication incrementParticipantCount
      dsimp only
      rw [if_pos rfl, if_pos h]
      exact getOpenFlag_setOpenFlag _ _ _
    exact ⟨hflag, by simp [KAALCAL.getStats, hflag]⟩
  · intro h
    unfold KAALCAL.approveApplication incrementParticipantCount
    dsimp only
    rw [if_pos rfl, if_neg (by omega)]
  · intro h
    unfold KAALCAL.approveApplication incrementParticipantCount
    dsimp only
    rw [if_neg h]
  · have h := (approveDelegates_from_reset 999 _ hreset1 hreset2).2.1 (by decide)
    simp [KAALCAL.getStats, h]
  · have h := (approveDelegates_from_reset 1000 _ hreset1 hreset2).2.2 (by decide)
    simp [KAALCAL.getStats, h]

/-- Witness of C18: the approval that takes the count from 999 to 1000, one that
takes it from 7 to 8, and a team approval. -/
theorem delegate_flag_closes_at_limit_witness :
    (getOpenFlag (KAALCAL.approveApplication "delegate" { approvedDelegates := some 999 }).2
        "delegate" = some "false" ∧
      (KAALCAL.getStats
        (KAALCAL.approveApplication "delegate"
          { approvedDelegates := some 999 }).2).delegateApplicationsOpen = false) ∧
    (KAALCAL.approveApplication "delegate"
        { approvedDelegates := some 7, typeOpen := [("team", "false")] }).2.typeOpen =
      [("team", "false")] ∧
    (KAALCAL.approveApplication "team"
        { approvedDelegates := some 999, typeOpen := [("team", "false")] }).2.typeOpen =
      [("team", "false")] :=
  ⟨(delegate_flag_closes_at_limit { approvedDelegates := some 999 } "team").1 (by decide),
   (delegate_flag_closes_at_limit { approvedDelegates := some 7, typeOpen := [("team", "false")] }
      "team").2.1 (by decide),
   (delegate_flag_closes_at_limit
      { approvedDelegates := some 999, typeOpen := [("team", "false")] } "team").2.2.1
      (by decide)⟩

/-! ## Theorems: the admin panel -/

/-- C19 (defect): over a local storage whose `kaalcal_applications` entry is not
JSON, `loadStoredData` throws at its first `JSON.parse`, before it reaches the
reset of the accounts: `users` is still the empty list of the constructor, and
a login with the built-in `admin` / `admin123` finds no account. -/
theorem corrupt_applications_block_the_accounts :
    AdminPanel.loadStoredData 0 corruptApplicationsPage = .threw corruptApplicationsPage ∧
    (AdminPanel.loadStoredData 0 corruptApplicationsPage).page.panel.users = [] ∧
    (AdminPanel.loadStoredData 0 corruptApplicationsPage).page.panel.users ≠ builtinUsers ∧
    (AdminPanel.handleLogin "admin" "admin123"
      (AdminPanel.loadStoredData 0 corruptApplicationsPage).page).panel.currentUser = none := by
  refine ⟨by decide, by decide, by decide, by decide⟩

/-- When the `kaalcal_applications` entry is absent or JSON, the accounts after
`loadStoredData` are the three built-in ones, whatever `kaalcal_users` and
`kaalcal_settings` hold and whether or not the call ends by throwing. -/
theorem loadStoredData_users (now : Nat) (p : Page)
    (h : p.storage.applications ≠ .corrupt) :
    (AdminPanel.loadStoredData now p).page.panel.users = builtinUsers := by
  unfold AdminPanel.loadStoredData
  cases ha : p.storage.applications with
  | corrupt => exact absurd ha h
  | absent => cases hs : p.storage.settings <;> simp [hs, Run.page]
  | value a => cases hs : p.storage.settings <;> simp [hs, Run.page]

/-- With the three built-in accounts, `handleLogin` sets `currentUser` and the
session entry to an account with the entered name and password when there is
one, and changes nothing otherwise. -/
theorem handleLogin_builtin (username password : String) (p : Page)
    (h : p.panel.users = builtinUsers) :
    ((∃ u ∈ builtinUsers, u.username = username ∧ u.password = password) →
      ∃ u ∈ builtinUsers, u.username = username ∧ u.password = password ∧
        (AdminPanel.handleLogin username password p).panel.currentUser = some u ∧
        (AdminPanel.handleLogin username password p).session = .value u) ∧
    ((¬ ∃ u ∈ builtinUsers, u.username = username ∧ u.password = password) →
      AdminPanel.handleLogin username password p = p) := by
  unfold AdminPanel.handleLogin
  rw [h]
  cases hf : builtinUsers.find? (fun u => u.username == username && u.password == password) with
  | none =>
    constructor
    · rintro ⟨u, hu, h1, h2⟩
      have := List.find?_eq_none.1 hf u hu
      simp [h1, h2] at this
    · intro _
      rfl
  | some u =>
    have hmem := List.mem_of_find?_eq_some hf
    have hp := List.find?_some hf
    simp only [Bool.and_eq_true, beq_iff_eq] at hp
    constructor
    · intro _
      exact ⟨u, hmem, hp.1, hp.2, rfl, rfl⟩
    · intro hne
      exact absurd ⟨u, hmem, hp.1, hp.2⟩ hne

theorem lookup_map_self (type : String) (v : TypeSetting) (s : Settings) (app : TypeSetting)
    (h : s.lookup type = some app) :
    (s.map fun e => if e.1 == type then (e.1, v) else e).lookup type = some v := by
  induction s with
  | nil => simp [List.lookup] at h
  | cons e s ih =>
    obtain ⟨k, w⟩ := e
    by_cases hk : k = type
    · subst hk
      simp only [List.map_cons, beq_self_eq_true, if_true]
      rw [List.lookup_cons]
      simp
    · have h2 : (type == k) = false := by simpa using fun h3 : type = k => hk h3.symm
      rw [List.lookup_cons, h2] at h
      simp only [List.map_cons]
      rw [if_neg (by simpa using hk), List.lookup_cons, h2]
      exact ih h

theorem lookup_map_other (type other : String) (v : TypeSetting) (s : Settings)
    (h : other ≠ type) :
    (s.map fun e => if e.1 == type then (e.1, v) else e).lookup other = s.lookup other := by
  induction s with
  | nil => rfl
  | cons e s ih =>
    obtain ⟨k, w⟩ := e
    by_cases hk : k = type
    · subst hk
      have h2 : (other == k) = false := by simpa using h
      simp only [List.map_cons, beq_self_eq_true, if_true, List.lookup_cons, h2]
      exact ih
    · simp only [List.map_cons]
      rw [if_neg (by simpa using hk)]
      cases h3 : other == k
      · rw [List.lookup_cons, List.lookup_cons, h3]
        exact ih
      · rw [List.lookup_cons, List.lookup_cons, h3]

/-- The settings after a toggle of `type` by `user` at the time `now`. -/
theorem toggleApplication_with_edit (now : Nat) (type : String) (p : Page) (u : AdminUser)
    (s : Settings) (app : TypeSetting)
    (huser : p.panel.currentUser = some u) (hset : p.panel.settings = some s)
    (hlook : s.lookup type = some app) (hedit : u.permissions.contains "edit" = true) :
    AdminPanel.toggleApplication now type p =
      .done { p with
        panel := { p.panel with settings := some (s.map fun e =>
          if e.1 == type then
            (e.1, { app with isOpen := !app.isOpen, lastUpdated := now, updatedBy := u.name })
          else e) },
        storage := { p.storage with settings := .value (s.map fun e =>
          if e.1 == type then
            (e.1, { app with isOpen := !app.isOpen, lastUpdated := now, updatedBy := u.name })
          else e) } } := by
  simp only [AdminPanel.toggleApplication, huser, AdminPanel.canToggleApplications, hedit, hset,
    hlook, Bool.not_true, Bool.false_eq_true, if_false]

/-- C20: for a type that has an entry `app` in `settings.applications`:
`toggleApplication(type)` by a user without the permission `edit` leaves the
panel and local storage as they were; by a user with `edit` it makes the entry
of the type `app` with `open` negated, `updatedBy` the name of the user and
`lastUpdated` the current time, stores the new settings in `kaalcal_settings`,
leaves the entry of every other type as it was, and a second toggle gives the
entry the `open` value it had at first. -/
theorem toggle_application_type (now now2 : Nat) (type : String) (p : Page) (u : AdminUser)
    (s : Settings) (app : TypeSetting)
    (huser : p.panel.currentUser = some u) (hset : p.panel.settings = some s)
    (hlook : s.lookup type = some app) :
    (u.permissions.contains "edit" = false →
      AdminPanel.toggleApplication now type p = .done p) ∧
    (u.permissions.contains "edit" = true →
      ∃ s2 : Settings,
        AdminPanel.toggleApplication now type p =
          .done { p with panel := { p.panel with settings := some s2 },
                         storage := { p.storage with settings := .value s2 } } ∧
        s2.lookup type =
          some { app with isOpen := !app.isOpen, lastUpdated := now, updatedBy := u.name } ∧
        (∀ other, other ≠ type → s2.lookup other = s.lookup other) ∧
        ∃ s3 : Settings,
          (AdminPanel.toggleApplication now2 type
            (AdminPanel.toggleApplication now type p).page).page.panel.settings = some s3 ∧
          (AdminPanel.toggleApplication now2 type
            (AdminPanel.toggleApplication now type p).page).page.storage.settings = .value s3 ∧
          (s3.lookup type).map (fun e => e.isOpen) = some app.isOpen ∧
          (∀ other, other ≠ type → s3.lookup other = s.lookup other)) := by
  constructor
  · intro hedit
    simp only [AdminPanel.toggleApplication, huser, AdminPanel.canToggleApplications, hedit,
      Bool.not_false, if_true]
  · intro hedit
    have h1 := toggleApplication_with_edit now type p u s app huser hset hlook hedit
    have hl1 := lookup_map_self type
      { app with isOpen := !app.isOpen, lastUpdated := now, updatedBy := u.name } s app hlook
    refine ⟨_, h1, hl1, fun other ho => lookup_map_other type other _ s ho, ?_⟩
    have h2 := toggleApplication_with_edit now2 type (AdminPanel.toggleApplication now type p).page
      u _ _ (by rw [h1]; exact huser) (by rw [h1]; rfl) hl1 hedit
    refine ⟨_, by rw [h2]; rfl, by rw [h2]; rfl, ?_, ?_⟩
    · rw [lookup_map_self type _ _ _ hl1]
      simp
    · intro other ho
      rw [lookup_map_other type other _ _ ho, lookup_map_other type other _ _ ho]

/-- Witness of C20: `admin` closes the delegate applications over the default
settings, and `ik_user` cannot. -/
theorem toggle_application_type_witness :
    (AdminPanel.toggleApplication 200 "delegate"
        { adminPage with panel := { adminPage.panel with currentUser := some ikUser } } =
      .done { adminPage with panel := { adminPage.panel with currentUser := some ikUser } }) ∧
    ((AdminPanel.toggleApplication 200 "delegate" adminPage).page.panel.settings.map
        fun s => s.map fun e => (e.1, e.2.isOpen, e.2.updatedBy)) =
      some [("delegate", false, "Genel Koordinatör"), ("delegation", true, "System"),
            ("team", false, "System")] :=
  ⟨(toggle_application_type 200 300 "delegate"
      { adminPage with panel := { adminPage.panel with currentUser := some ikUser } } ikUser
      (defaultSettings 100)
      { isOpen := true, name := "Delege Başvurusu", lastUpdated := 100, updatedBy := "System" }
      rfl rfl (by decide)).1 (by decide),
   by decide⟩

theorem statusStep_refl (l : List ClientApplication) : List.Forall₂ statusStep l l := by
  induction l with
  | nil => exact List.Forall₂.nil
  | cons a l ih => exact List.Forall₂.cons ⟨rfl, Or.inl rfl⟩ ih

theorem statusStep_trans {l1 l2 l3 : List ClientApplication}
    (h1 : List.Forall₂ statusStep l1 l2) (h2 : List.Forall₂ statusStep l2 l3) :
    List.Forall₂ statusStep l1 l3 := by
  induction h1 generalizing l3 with
  | nil => cases h2; exact List.Forall₂.nil
  | cons hab _ ih =>
    cases h2 with
    | cons hbc hrest =>
      refine List.Forall₂.cons ⟨hbc.1.trans hab.1, ?_⟩ (ih hrest)
      rcases hbc.2 with h | h | h
      · rw [h]; exact hab.2
      · exact Or.inr (Or.inl h)
      · exact Or.inr (Or.inr h)

theorem statusStep_mutateFirst (cond : ClientApplication → Bool)
    (update : ClientApplication → ClientApplication)
    (hupdate : ∀ a, statusStep a (update a)) (l : List ClientApplication) :
    List.Forall₂ statusStep l (mutateFirst cond update l) := by
  induction l with
  | nil => exact List.Forall₂.nil
  | cons a l ih =>
    unfold mutateFirst at ih ⊢
    by_cases hc : cond a = true
    · simp only [findOneAndUpdate, hc, if_true]
      exact List.Forall₂.cons (hupdate a) (statusStep_refl l)
    · simp only [findOneAndUpdate, hc, Bool.false_eq_true, if_false]
      cases hf : findOneAndUpdate cond update l with
      | none => exact statusStep_refl _
      | some r =>
        rw [hf] at ih
        exact List.Forall₂.cons ⟨rfl, Or.inl rfl⟩ ih

theorem statusStep_updateApplicationStatus (now : Nat) (status : String) (p : Page)
    (hstatus : status = "approved" ∨ status = "rejected") :
    List.Forall₂ statusStep p.panel.applications
      (AdminPanel.updateApplicationStatus now status p).page.panel.applications := by
  unfold AdminPanel.updateApplicationStatus
  split
  · exact statusStep_refl _
  · dsimp only
    split
    · exact statusStep_refl _
    · split
      · (apply statusStep_mutateFirst; intro a; exact ⟨rfl, Or.inr hstatus⟩)
      · (apply statusStep_mutateFirst; intro a; exact ⟨rfl, Or.inr hstatus⟩)

theorem statusStep_assignApplication (now : Nat) (assignTo : Option String) (p : Page) :
    List.Forall₂ statusStep p.panel.applications
      (AdminPanel.assignApplication now assignTo p).page.panel.applications := by
  unfold AdminPanel.assignApplication
  split
  · exact statusStep_refl _
  · split
    · exact statusStep_refl _
    · dsimp only
      split
      · exact statusStep_refl _
      · split
        · (apply statusStep_mutateFirst; intro a; exact ⟨rfl, Or.inl rfl⟩)
        · (apply statusStep_mutateFirst; intro a; exact ⟨rfl, Or.inl rfl⟩)

theorem statusStep_saveNotes (now : Nat) (notes : String) (p : Page) :
    List.Forall₂ statusStep p.panel.applications
      (AdminPanel.saveNotes now notes p).page.panel.applications := by
  unfold AdminPanel.saveNotes
  split
  · exact statusStep_refl _
  · dsimp only
    split
    · exact statusStep_refl _
    · split
      · (apply statusStep_mutateFirst; intro a; exact ⟨rfl, Or.inl rfl⟩)
      · (apply statusStep_mutateFirst; intro a; exact ⟨rfl, Or.inl rfl⟩)

theorem statusStep_toggleApplication (now : Nat) (type : String) (p : Page) :
    List.Forall₂ statusStep p.panel.applications
      (AdminPanel.toggleApplication now type p).page.panel.applications := by
  unfold AdminPanel.toggleApplication
  repeat' split
  all_goals exact statusStep_refl _

theorem statusStep_runActions (actions : List (Nat × AdminAction)) (p : Page) :
    List.Forall₂ statusStep p.panel.applications (runActions actions p).panel.applications := by
  induction actions generalizing p with
  | nil => exact statusStep_refl _
  | cons na rest ih =>
    obtain ⟨now, action⟩ := na
    have hstep : List.Forall₂ statusStep p.panel.applications
        (action.run now p).page.panel.applications := by
      cases action with
      | approve => exact statusStep_updateApplicationStatus now "approved" p (Or.inl rfl)
      | reject => exact statusStep_updateApplicationStatus now "rejected" p (Or.inr rfl)
      | assign assignTo => exact statusStep_assignApplication now assignTo p
      | saveNotes notes => exact statusStep_saveNotes now notes p
      | toggle type => exact statusStep_toggleApplication now type p
    exact statusStep_trans hstep (ih _)

/-- C16: for every state of the admin page and every sequence of the actions
approve button, reject button, assign, save notes and toggle of an application
type, the applications afterwards are the same applications, one by one, and
each has the status it had before or one of `approved` and `rejected`: one
that was pending is pending, approved or rejected, and one that was not pending
is not pending. -/
theorem status_workflow_one_way (actions : List (Nat × AdminAction)) (p : Page) :
    List.Forall₂ oneWay p.panel.applications (runActions actions p).panel.applications := by
  refine (statusStep_runActions actions p).imp ?_
  intro a b h
  refine ⟨h.1, ?_, ?_⟩
  · intro ha
    rcases h.2 with h2 | h2 | h2
    · exact Or.inl (h2.trans ha)
    · exact Or.inr (Or.inl h2)
    · exact Or.inr (Or.inr h2)
  · intro ha hb
    rcases h.2 with h2 | h2 | h2
    · exact ha (h2.symm.trans hb)
    · rw [h2] at hb
      exact absurd hb (by decide)
    · rw [h2] at hb
      exact absurd hb (by decide)

/-- C15 (counterexample): an account whose permissions are `view` alone has the
pending application selected; `updateApplicationStatus('approved')` and
`updateApplicationStatus('rejected')` change its status and the stored
`kaalcal_applications`.  And the built-in `ik_user`, who has no permission
`assign`, changes `assignedTo` with `assignApplication`. -/
theorem actions_ignore_permissions :
    viewerUser.permissions.contains "approve" = false ∧
    viewerUser.permissions.contains "reject" = false ∧
    ikUser.permissions.contains "assign" = false ∧
    ((AdminPanel.updateApplicationStatus 500 "approved" viewerPage).page.panel.applications.map
      fun a => a.status) = ["approved"] ∧
    (AdminPanel.updateApplicationStatus 500 "approved" viewerPage).page.storage.applications ≠
      viewerPage.storage.applications ∧
    ((AdminPanel.updateApplicationStatus 500 "rejected" viewerPage).page.panel.applications.map
      fun a => a.status) = ["rejected"] ∧
    ((AdminPanel.assignApplication 500 (some "Deniz") ikUserPage).page.panel.applications.map
      fun a => a.assignedTo) = [some "Deniz"] ∧
    (AdminPanel.assignApplication 500 (some "Deniz") ikUserPage).page.storage.applications ≠
      ikUserPage.storage.applications := by
  refine ⟨by decide, by decide, by decide, by decide, by decide, by decide, by decide, by decide⟩

theorem mutateFirst_split {α : Type} (cond : α → Bool) (update : α → α)
    (pre : List α) (a : α) (post : List α)
    (hpre : ∀ b ∈ pre, cond b = false) (ha : cond a = true) :
    mutateFirst cond update (pre ++ a :: post) = pre ++ update a :: post := by
  unfold mutateFirst
  rw [findOneAndUpdate_split cond update pre a post hpre ha]

theorem find?_split {α : Type} (cond : α → Bool) (pre : List α) (a : α) (post : List α)
    (hpre : ∀ b ∈ pre, cond b = false) (ha : cond a = true) :
    (pre ++ a :: post).find? cond = some a := by
  induction pre with
  | nil => simp [List.find?, ha]
  | cons b pre ih =>
    have hb : cond b = false := hpre b (List.mem_cons_self _ _)
    simp only [List.cons_append, List.find?, hb]
    exact ih (fun c hc => hpre c (List.mem_cons_of_mem _ hc))

theorem approveApplication_keeps_applications (type : String) (ls : LocalStorage) :
    (KAALCAL.approveApplication type ls).2.applications = ls.applications := by
  unfold KAALCAL.approveApplication incrementParticipantCount closeDelegateApplications
    setOpenFlag
  dsimp only
  split_ifs <;> rfl

/-- C15 (amended): with a user logged in and a stored application `a` of id
`id`, the first with that id: `viewApplication(id)` selects the application and
displays the approve, reject and assign buttons exactly when the permissions of
the user contain `approve`, `reject` and `assign`; and with that application
selected, `updateApplicationStatus(status)` and `assignApplication`, which
check no permission, make the change for every user: the status becomes
`status`, resp. `assignedTo` the name entered, and `kaalcal_applications`
stores the new list. -/
theorem permissions_gate_the_buttons_only (now : Nat) (p : Page) (u : AdminUser) (id : Nat)
    (pre : List ClientApplication) (a : ClientApplication) (post : List ClientApplication)
    (huser : p.panel.currentUser = some u)
    (hsplit : p.panel.applications = pre ++ a :: post)
    (hpre : ∀ b ∈ pre, b.id ≠ id) (ha : a.id = id) (hid : id ≠ 0) :
    (∃ q : Page, AdminPanel.viewApplication id p = .done q ∧
      q.panel.currentApplicationId = some id ∧
      q.panel.applications = p.panel.applications ∧
      (q.panel.approveBtn = true ↔ "approve" ∈ u.permissions) ∧
      (q.panel.rejectBtn = true ↔ "reject" ∈ u.permissions) ∧
      (q.panel.assignBtn = true ↔ "assign" ∈ u.permissions)) ∧
    (p.panel.currentApplicationId = some id →
      (∀ status,
        (AdminPanel.updateApplicationStatus now status p).page.panel.applications =
          pre ++ { a with status := status, updatedAt := some now, updatedBy := some u.name }
            :: post ∧
        (AdminPanel.updateApplicationStatus now status p).page.storage.applications =
          .value (pre ++ { a with status := status, updatedAt := some now,
                                  updatedBy := some u.name } :: post)) ∧
      (∀ assignTo, assignTo ≠ "" →
        (AdminPanel.assignApplication now (some assignTo) p).page.panel.applications =
          pre ++ { a with assignedTo := some assignTo, assignedAt := some now,
                          assignedBy := some u.name } :: post ∧
        (AdminPanel.assignApplication now (some assignTo) p).page.storage.applications =
          .value (pre ++ { a with assignedTo := some assignTo, assignedAt := some now,
                                  assignedBy := some u.name } :: post))) := by
  constructor
  · have hfind : p.panel.applications.find? (fun app => app.id == id) = some a := by
      rw [hsplit]
      exact find?_split _ pre a post (fun b hb => by simpa using hpre b hb) (by simpa using ha)
    have hview : AdminPanel.viewApplication id p =
        .done { p with panel := { p.panel with
          currentApplicationId := some id,
          approveBtn := u.permissions.contains "approve",
          rejectBtn := u.permissions.contains "reject",
          assignBtn := u.permissions.contains "assign" } } := by
      simp only [AdminPanel.viewApplication, hfind, huser]
    refine ⟨_, hview, rfl, rfl, ?_, ?_, ?_⟩
    · simp
    · simp
    · simp
  · intro hsel
    have hcondpre : ∀ b ∈ pre, (some b.id == some id) = false := fun b hb => by
      simpa using hpre b hb
    have hconda : (some a.id == some id) = true := by simpa using ha
    have hno : noSelection (some id) = false := by simpa [noSelection] using hid
    constructor
    · intro status
      have hmut := mutateFirst_split (fun app : ClientApplication => some app.id == some id)
        (fun app => { app with status := status, updatedAt := some now,
                               updatedBy := some u.name }) pre a post hcondpre hconda
      have hfind := find?_split (fun app : ClientApplication => some app.id == some id)
        pre a post hcondpre hconda
      unfold AdminPanel.updateApplicationStatus
      rw [hsel, hno, hsplit]
      simp only [Bool.false_eq_true, if_false, hfind, huser, hmut, Run.page]
      constructor
      · trivial
      · split_ifs
        · rw [approveApplication_keeps_applications]
        · rfl
    · intro assignTo hne
      have hmut := mutateFirst_split (fun app : ClientApplication => some app.id == some id)
        (fun app => { app with assignedTo := some assignTo, assignedAt := some now,
                               assignedBy := some u.name }) pre a post hcondpre hconda
      have hfind := find?_split (fun app : ClientApplication => some app.id == some id)
        pre a post hcondpre hconda
      unfold AdminPanel.assignApplication
      rw [hsel, hno, hsplit]
      simp only [Bool.false_eq_true, if_false, truthy_some hne, Bool.not_true, hfind, huser, hmut,
        Run.page]
      exact ⟨trivial, trivial⟩

/-- Witness of C15 (amended): `ik_user` opens the pending application: the
approve and reject buttons are displayed, the assign button is not. -/
theorem permissions_gate_the_buttons_only_witness :
    ∃ q : Page, AdminPanel.viewApplication 7 ikUserPage = .done q ∧
      q.panel.currentApplicationId = some 7 ∧
      q.panel.applications = ikUserPage.panel.applications ∧
      (q.panel.approveBtn = true ↔ "approve" ∈ ikUser.permissions) ∧
      (q.panel.rejectBtn = true ↔ "reject" ∈ ikUser.permissions) ∧
      (q.panel.assignBtn = true ↔ "assign" ∈ ikUser.permissions) :=
  (permissions_gate_the_buttons_only 500 ikUserPage ikUser 7 [] pendingApplication [] rfl rfl
    (by decide) rfl (by decide)).1

/-! ## Theorems: the two stores of open types -/

theorem toggleApplication_keeps_flags (now : Nat) (type : String) (p : Page) :
    (AdminPanel.toggleApplication now type p).page.storage.typeOpen = p.storage.typeOpen := by
  unfold AdminPanel.toggleApplication
  repeat' split
  all_goals rfl

theorem getApplicationStatus_toggle (type : String) (p : Page) :
    AdminPanel.getApplicationStatus (AdminPanel.toggleApplicationStatus type p).storage type =
      !AdminPanel.getApplicationStatus p.storage type := by
  unfold AdminPanel.getApplicationStatus AdminPanel.toggleApplicationStatus
  dsimp only
  rw [getOpenFlag_setOpenFlag]
  cases h : (getOpenFlag p.storage type != some "false") <;> simp

theorem fresh_page_settings :
    (AdminPanel.loadStoredData 0 {}).page.storage.settings = .value (defaultSettings 0) ∧
    (AdminPanel.loadStoredData 0 {}).page.storage.typeOpen = [] := by
  constructor <;> rfl

/-- C21: `toggleApplication(type)` never changes a flag `kaalcal_<type>_open`;
`toggleApplicationStatus(type)` negates what `getApplicationStatus(type)`
returns (an absent flag counting as open) and changes neither the panel nor the
stored settings; a `toggleApplication` by a user with `edit` on a type with an
entry negates what `isApplicationOpen(type)` returns on a checker loaded
afterwards; and for every type a state is reachable in which a newly loaded
checker and `getApplicationStatus` disagree on the type. -/
theorem open_type_stores_are_independent :
    (∀ (now : Nat) (type : String) (p : Page),
      (AdminPanel.toggleApplication now type p).page.storage.typeOpen = p.storage.typeOpen) ∧
    (∀ (type : String) (p : Page),
      (AdminPanel.toggleApplicationStatus type p).panel = p.panel ∧
      (AdminPanel.toggleApplicationStatus type p).storage.settings = p.storage.settings ∧
      AdminPanel.getApplicationStatus (AdminPanel.toggleApplicationStatus type p).storage type =
        !AdminPanel.getApplicationStatus p.storage type) ∧
    (∀ (now : Nat) (type : String) (p : Page) (u : AdminUser) (s : Settings) (app : TypeSetting),
      p.panel.currentUser = some u → u.permissions.contains "edit" = true →
      p.panel.settings = some s → s.lookup type = some app →
      ∃ c, ApplicationStatusChecker.loadSettings
            (AdminPanel.toggleApplication now type p).page.storage = some c ∧
        c.isApplicationOpen type = !app.isOpen) ∧
    (∀ type : String, ∃ p c, Reachable p ∧
      ApplicationStatusChecker.loadSettings p.storage = some c ∧
      c.isApplicationOpen type ≠ AdminPanel.getApplicationStatus p.storage type) := by
  refine ⟨toggleApplication_keeps_flags, ?_, ?_, ?_⟩
  · intro type p
    exact ⟨rfl, rfl, getApplicationStatus_toggle type p⟩
  · intro now type p u s app huser hedit hset hlook
    rw [toggleApplication_with_edit now type p u s app huser hset hlook hedit]
    refine ⟨_, rfl, ?_⟩
    simp only [ApplicationStatusChecker.isApplicationOpen]
    have hl := lookup_map_self type
      { app with isOpen := !app.isOpen, lastUpdated := now, updatedBy := u.name } s app hlook
    have hmap : ∀ l : Settings, ∀ v : TypeSetting, l.lookup type = some v →
        (l.map fun e => (e.1, e.2.isOpen)).lookup type = some v.isOpen := by
      intro l v
      induction l with
      | nil => intro h; simp [List.lookup] at h
      | cons e l ih =>
        obtain ⟨k, w⟩ := e
        intro h
        cases hk : type == k
        · rw [List.lookup_cons, hk] at h
          simp only [List.map_cons]
          rw [List.lookup_cons, hk]
          exact ih h
        · rw [List.lookup_cons, hk] at h
          simp only [List.map_cons]
          rw [List.lookup_cons, hk]
          simp only [Option.some.injEq] at h
          rw [h]
    rw [hmap _ _ hl]
  · intro type
    have hstart : Reachable (AdminPanel.loadStoredData 0 {}).page := Reachable.start 0
    have hc : ApplicationStatusChecker.loadSettings (AdminPanel.loadStoredData 0 {}).page.storage =
        some { settings := some ((defaultSettings 0).map fun e => (e.1, e.2.isOpen)) } := by
      unfold ApplicationStatusChecker.loadSettings
      rw [fresh_page_settings.1]
    have hopen : AdminPanel.getApplicationStatus (AdminPanel.loadStoredData 0 {}).page.storage type
        = true := by
      simp [AdminPanel.getApplicationStatus, getOpenFlag, fresh_page_settings.2]
    cases hcase : ApplicationStatusChecker.isApplicationOpen
        { settings := some ((defaultSettings 0).map fun e => (e.1, e.2.isOpen)) } type
    · exact ⟨_, _, hstart, hc, by rw [hcase, hopen]; decide⟩
    · refine ⟨_, _, Reachable.toggleStatus type hstart, hc, ?_⟩
      rw [hcase, getApplicationStatus_toggle, hopen]
      decide

/-- Witness of C21: `admin` closes the delegate applications, which a checker
loaded afterwards reports, while the flag of the type is untouched. -/
theorem open_type_stores_are_independent_witness :
    (∃ c, ApplicationStatusChecker.loadSettings
          (AdminPanel.toggleApplication 200 "delegate" adminPage).page.storage = some c ∧
        c.isApplicationOpen "delegate" = !true) ∧
    AdminPanel.getApplicationStatus
      (AdminPanel.toggleApplication 200 "delegate" adminPage).page.storage "delegate" = true :=
  ⟨open_type_stores_are_independent.2.2.1 200 "delegate" adminPage adminUser (defaultSettings 100)
    { isOpen := true, name := "Delege Başvurusu", lastUpdated := 100, updatedBy := "System" }
    rfl (by decide) rfl (by decide), by decide⟩

/-! ## Theorems: the counters and the approved applications -/

theorem outcomesFor_cons (key : String) (c : Call) (cs : List Call) (m : RateLimiters) :
    outcomesFor key (c :: cs) m =
      if c.key = key then
        (checkRateLimit c.now c.key c.maxRequests c.windowMs m).1 ::
          outcomesFor key cs (checkRateLimit c.now c.key c.maxRequests c.windowMs m).2
      else outcomesFor key cs (checkRateLimit c.now c.key c.maxRequests c.windowMs m).2 := by
  by_cases h : c.key = key
  · simp [outcomesFor, runCalls, List.filter_cons, h]
  · simp [outcomesFor, runCalls, List.filter_cons, h]

theorem callsFor_cons (key : String) (c : Call) (cs : List Call) :
    callsFor key (c :: cs) = if c.key = key then callsFor key cs + 1 else callsFor key cs := by
  by_cases h : c.key = key
  · simp [callsFor, List.filter_cons, h]
  · simp [callsFor, List.filter_cons, h]

theorem checkRateLimit_other_key (now : Nat) (key other : String) (maxRequests windowMs : Nat)
    (m : RateLimiters) (h : other ≠ key) :
    (checkRateLimit now other maxRequests windowMs m).2 key = m key := by
  have hne : ¬ key = other := fun e => h e.symm
  unfold checkRateLimit
  repeat' split
  all_goals simp [RateLimiters.set, hne]

theorem checkRateLimit_live (now : Nat) (key : String) (maxRequests windowMs : Nat)
    (m : RateLimiters) (limit : Limit) (hm : m key = some limit) (hnow : now ≤ limit.resetTime) :
    (checkRateLimit now key maxRequests windowMs m).1 = decide (limit.count < maxRequests) ∧
    (checkRateLimit now key maxRequests windowMs m).2 key =
      some { limit with count := if limit.count < maxRequests then limit.count + 1
                                 else limit.count } := by
  have h1 : ¬ now > limit.resetTime := by omega
  unfold checkRateLimit
  rw [hm]
  simp only [h1, if_false]
  by_cases h2 : limit.count ≥ maxRequests
  · have h3 : ¬ limit.count < maxRequests := by omega
    simp [h2, h3, hm]
  · have h3 : limit.count < maxRequests := by omega
    simp [h2, h3, RateLimiters.set]

theorem checkRateLimit_fresh (now : Nat) (key : String) (maxRequests windowMs : Nat)
    (m : RateLimiters)
    (hm : m key = none ∨ ∃ limit, m key = some limit ∧ limit.resetTime < now) :
    (checkRateLimit now key maxRequests windowMs m).1 = true ∧
    (checkRateLimit now key maxRequests windowMs m).2 key =
      some { count := 1, resetTime := now + windowMs } := by
  unfold checkRateLimit
  rcases hm with hm | ⟨limit, hm, hlt⟩
  · rw [hm]
    simp [RateLimiters.set]
  · rw [hm]
    have h1 : now > limit.resetTime := hlt
    simp [h1, RateLimiters.set]

theorem outcomesFor_live (key : String) (maxRequests : Nat) (calls : List Call) :
    ∀ (m : RateLimiters) (limit : Limit), m key = some limit →
      (∀ c ∈ calls, c.key = key → c.maxRequests = maxRequests ∧ c.now ≤ limit.resetTime) →
      outcomesFor key calls m =
        (List.range (callsFor key calls)).map fun i => decide (limit.count + i < maxRequests) := by
  induction calls with
  | nil => intro m limit _ _; rfl
  | cons c cs ih =>
    intro m limit hm hcalls
    have hcs : ∀ l : Limit, l.resetTime = limit.resetTime →
        ∀ d ∈ cs, d.key = key → d.maxRequests = maxRequests ∧ d.now ≤ l.resetTime := by
      intro l hl d hd hk
      rw [hl]
      exact hcalls d (List.mem_cons_of_mem _ hd) hk
    rw [outcomesFor_cons, callsFor_cons]
    by_cases hk : c.key = key
    · obtain ⟨hmax, hnow⟩ := hcalls c (List.mem_cons_self _ _) hk
      have hlive := checkRateLimit_live c.now key maxRequests c.windowMs m limit hm hnow
      rw [if_pos hk, if_pos hk, hk, hmax, hlive.1, ih _ _ hlive.2 (hcs _ rfl)]
      rw [List.range_succ_eq_map, List.map_cons, List.map_map]
      simp only [Nat.add_zero]
      congr 1
      apply List.map_congr_left
      intro i _
      simp only [Function.comp]
      by_cases hlt : limit.count < maxRequests
      · simp only [hlt, if_true]
        congr 1
        apply propext
        constructor <;> intro h <;> omega
      · simp only [hlt, if_false]
        have h1 : ¬ limit.count + i < maxRequests := by omega
        have h2 : ¬ limit.count + (i + 1) < maxRequests := by omega
        simp [h1, h2]
    · rw [if_neg hk, if_neg hk]
      have hother := checkRateLimit_other_key c.now key c.key c.maxRequests c.windowMs m hk
      rw [hm] at hother
      exact ih _ limit hother (hcs limit rfl)

/-- C27: `checkRateLimit` is a fixed-window limiter.  When the key has no entry,
or an entry whose reset time is before `now`, and after the call at `now` every
call for the key comes with the same `maxRequests` (at least 1) at a time not
after `now + windowMs`, then, whatever calls for other keys come in between, the
calls for the key return true for the first `maxRequests` of them and false for
all later ones; a call that returns false leaves the map as it is; a call after
the reset time of the entry returns true and sets the entry to count 1 and
reset time `now + windowMs`; and a call for another key leaves the entry of the
key as it is. -/
theorem rate_limit_fixed_window (key : String) (maxRequests windowMs now : Nat)
    (calls : List Call) (m : RateLimiters) (hmax : 1 ≤ maxRequests)
    (hfresh : m key = none ∨ ∃ limit, m key = some limit ∧ limit.resetTime < now)
    (hcalls : ∀ c ∈ calls, c.key = key →
      c.maxRequests = maxRequests ∧ c.now ≤ now + windowMs) :
    outcomesFor key
        ({ now := now, key := key, maxRequests := maxRequests, windowMs := windowMs } :: calls) m =
      (List.range (callsFor key calls + 1)).map (fun i => decide (i < maxRequests)) ∧
    (∀ (t : Nat) (k : String) (mr w : Nat) (s : RateLimiters),
      (checkRateLimit t k mr w s).1 = false → (checkRateLimit t k mr w s).2 = s) ∧
    (∀ (t : Nat) (k : String) (mr w : Nat) (s : RateLimiters) (limit : Limit),
      s k = some limit → limit.resetTime < t →
      (checkRateLimit t k mr w s).1 = true ∧
      (checkRateLimit t k mr w s).2 k = some { count := 1, resetTime := t + w }) ∧
    (∀ (t : Nat) (k other : String) (mr w : Nat) (s : RateLimiters), other ≠ k →
      (checkRateLimit t other mr w s).2 k = s k) := by
  refine ⟨?_, ?_, ?_, ?_⟩
  · have hf := checkRateLimit_fresh now key maxRequests windowMs m hfresh
    rw [outcomesFor_cons]
    simp only [if_true]
    rw [hf.1, outcomesFor_live key maxRequests calls _ _ hf.2 hcalls]
    rw [List.range_succ_eq_map, List.map_cons, List.map_map]
    have h0 : decide (0 < maxRequests) = true := by simpa using hmax
    rw [h0]
    congr 1
    apply List.map_congr_left
    intro i _
    simp only [Function.comp]
    congr 1
    apply propext
    constructor <;> intro h <;> omega
  · intro t k mr w s
    unfold checkRateLimit
    repeat' split
    all_goals simp
  · intro t k mr w s limit hs hlt
    exact checkRateLimit_fresh t k mr w s (Or.inr ⟨limit, hs, hlt⟩)
  · intro t k other mr w s h
    exact checkRateLimit_other_key t k other mr w s h

/-- Witness of C27: of three submissions of `contactForm` within a minute under
the limit 2, with a call for another key in between, the first two pass and the
third is refused. -/
theorem rate_limit_fixed_window_witness :
    outcomesFor "contactForm"
        ({ now := 1000, key := "contactForm", maxRequests := 2, windowMs := 60000 } ::
          sampleCalls) (fun _ => none) =
      [true, true, false, false] :=
  (rate_limit_fixed_window "contactForm" 2 60000 1000 sampleCalls (fun _ => none)
    (by decide) (Or.inl rfl) (by decide)).1

/-! ## Theorems: the password rule -/

/-- C28 (defect): the password `aB`, of two characters, passes the validation
whose message asks for at least 8 characters: it has a lowercase and an
uppercase letter, so its strength is 2, and the validator returns valid = true
with an empty message; the password `ab` is refused with the message that the
password must have at least 8 characters. -/
theorem short_password_is_valid :
    jsLength "aB" = 2 ∧ calculatePasswordStrength "aB" = 2 ∧
    passwordValidation "aB" = { valid := true, message := some "" } ∧
    passwordValidation "ab" =
      { valid := false, message := some "Şifre en az 8 karakter olmalı" } := by
  refine ⟨by decide, by decide, by decide, by decide⟩

/-- What the validator does decide: a non-empty password is valid exactly when
its strength is at least 2, and the message about 8 characters is given exactly
when it is not valid. -/
theorem passwordValidation_strength (value : String) (h : value ≠ "") :
    ((passwordValidation value).valid = true ↔ 2 ≤ calculatePasswordStrength value) ∧
    ((passwordValidation value).valid = false ↔
      (passwordValidation value).message = some "Şifre en az 8 karakter olmalı") := by
  unfold passwordValidation
  rw [if_neg h]
  by_cases hs : calculatePasswordStrength value < 2
  · have h2 : ¬ calculatePasswordStrength value ≥ 2 := by omega
    simp [hs, h2]
  · have h2 : calculatePasswordStrength value ≥ 2 := by omega
    simp [hs, h2]

/-- One direction of the rule holds: a password of at least 8 characters is
valid. -/
theorem passwordValidation_long (value : String) (h : 8 ≤ jsLength value) :
    (passwordValidation value).valid = true := by
  have hne : value ≠ "" := by
    rintro rfl
    revert h
    decide
  rw [(passwordValidation_strength value hne).1]
  obtain ⟨data⟩ := value
  cases data with
  | nil => exact absurd rfl hne
  | cons c cs =>
    unfold calculatePasswordStrength
    simp only [ge_iff_le, h, if_true, List.any_cons]
    have key : (c.isLower || cs.any Char.isLower) = true ∨
        (c.isUpper || cs.any Char.isUpper) = true ∨
        (c.isDigit || cs.any Char.isDigit) = true ∨
        (!(c.isLower || c.isUpper || c.isDigit) ||
          cs.any fun c => !(c.isLower || c.isUpper || c.isDigit)) = true := by
      cases c.isLower <;> cases c.isUpper <;> cases c.isDigit <;> simp
    rcases key with k | k | k | k <;> simp only [k, if_true] <;> omega

/-! ## Theorems: `assertThrows` and the sticky notifications -/

/-- C25 (defect): `assertThrows` succeeds for a function that completes without
throwing, with or without a message, as it does for one that throws: the error
it throws itself is caught by its own empty `catch` block, so the call resolves
for every function and every message. -/
theorem assertThrows_never_fails :
    assertThrows .resolved (some "must throw") = .resolved ∧
    assertThrows .resolved none = .resolved ∧
    (∀ (asyncFunction : Outcome) (message : Option String),
      assertThrows asyncFunction message = .resolved) := by
  refine ⟨rfl, rfl, ?_⟩
  intro asyncFunction message
  cases asyncFunction <;> rfl

/-- C24 (defect): in a new notification system, `sticky('Kaydedildi')` and
`loading('Bekleyin')` store the duration 5000 for the notification, not the 0
they pass, and `addNotification` schedules its close 5000 ms later; when that
timer and then the removal it schedules have run, the notification is no longer
in the list, without a call of `close`, `closeLatest` or `closeAll` and without
an eviction. -/
theorem sticky_is_closed_by_timer :
    ((({} : NotificationSystem).sticky 1000 1 "Kaydedildi").notifications.map
      fun n => n.data.duration) = [5000] ∧
    (({} : NotificationSystem).sticky 1000 1 "Kaydedildi").timers =
      [{ due := 6000, action := .close 1 }] ∧
    (((({} : NotificationSystem).sticky 1000 1 "Kaydedildi").fire
        { due := 6000, action := .close 1 }).fire
        { due := 6300, action := .remove 1 }).notifications = [] ∧
    (({} : NotificationSystem).loading 1000 1 "Bekleyin").timers =
      [{ due := 6000, action := .close 1 }] ∧
    (((({} : NotificationSystem).loading 1000 1 "Bekleyin").fire
        { due := 6000, action := .close 1 }).fire
        { due := 6300, action := .remove 1 }).notifications = [] := by
  refine ⟨by decide, by decide, by decide, by decide, by decide⟩

/-- The duration 0 that `sticky` and `loading` pass is replaced by the default
duration: the close of the notification is scheduled whenever the default
duration is not 0, and no timer is added when it is 0 and nothing is evicted. -/
theorem sticky_schedules_close (now element : Nat) (message : String) (ns : NotificationSystem) :
    (ns.defaultDuration ≠ 0 →
      { due := now + ns.defaultDuration, action := .close element } ∈
        (ns.sticky now element message).timers ∧
      { due := now + ns.defaultDuration, action := .close element } ∈
        (ns.loading now element message).timers) ∧
    (ns.defaultDuration = 0 → ns.notifications.length < ns.maxNotifications →
      (ns.sticky now element message).timers = ns.timers ∧
      (ns.loading now element message).timers = ns.timers) := by
  constructor
  · intro h
    have hpos : ns.defaultDuration > 0 := Nat.pos_of_ne_zero h
    simp [NotificationSystem.sticky, NotificationSystem.loading, NotificationSystem.show,
      NotificationSystem.addNotification, NotificationSystem.createNotification, hpos]
  · intro h hlen
    have hex : ns.notifications.length + 1 - ns.maxNotifications = 0 := by omega
    simp [NotificationSystem.sticky, NotificationSystem.loading, NotificationSystem.show,
      NotificationSystem.addNotification, NotificationSystem.createNotification, h, hex]

/-! ## Theorems: `validateEmail` -/

theorem classOf_atSign (u : Nat) : classOf u = .atSign ↔ u = 64 := by
  unfold classOf
  split
  · simp [*]
  · split
    · simp [*]
    · split <;> simp [*]

theorem classOf_dot (u : Nat) : classOf u = .dot ↔ u = 46 := by
  unfold classOf
  split
  · rename_i h; subst h; simp
  · split
    · simp [*]
    · split <;> simp [*]

theorem classOf_part (u : Nat) :
    (classOf u = .dot ∨ classOf u = .other) ↔ (unitWhitespace u = false ∧ u ≠ 64) := by
  unfold classOf
  split
  · simp [*]
  · split
    · rename_i h1 h; subst h; simp; decide
    · split <;> simp [*]

theorem mem_oneOrMore (x : List UnitClass) :
    x ∈ (oneOrMore notSpaceOrAt).matches' ↔
      x ≠ [] ∧ ∀ k ∈ x, k = UnitClass.dot ∨ k = UnitClass.other := by
  have hP : ∀ a : List UnitClass, a ∈ notSpaceOrAt.matches' ↔
      a = [UnitClass.dot] ∨ a = [UnitClass.other] := by
    intro a
    simp only [notSpaceOrAt, RegularExpression.matches', Language.mem_add]
    exact Iff.rfl
  simp only [oneOrMore, RegularExpression.matches', Language.mem_mul]
  constructor
  · rintro ⟨a, ha, b, hb, rfl⟩
    rw [Language.mem_kstar] at hb
    obtain ⟨L, rfl, hL⟩ := hb
    have ha2 := (hP a).1 ha
    constructor
    · rcases ha2 with rfl | rfl <;> simp
    · intro k hk
      rw [List.mem_append] at hk
      rcases hk with hk | hk
      · rcases ha2 with rfl | rfl <;> simp at hk <;> simp [hk]
      · rw [List.mem_flatten] at hk
        obtain ⟨y, hy, hky⟩ := hk
        rcases (hP y).1 (hL y hy) with rfl | rfl <;> simp at hky <;> simp [hky]
  · rintro ⟨hne, hall⟩
    cases x with
    | nil => exact absurd rfl hne
    | cons k xs =>
      refine ⟨[k], (hP _).2 ?_, xs, ?_, rfl⟩
      · rcases hall k (List.mem_cons_self _ _) with rfl | rfl <;> simp
      · rw [Language.mem_kstar]
        refine ⟨xs.map fun u => [u], ?_, ?_⟩
        · clear hall hne
          induction xs with
          | nil => rfl
          | cons y ys ih => simp only [List.map_cons, List.flatten_cons, List.singleton_append,
              List.cons.injEq, true_and]; exact ih
        · intro y hy
          rw [List.mem_map] at hy
          obtain ⟨u, hu, rfl⟩ := hy
          apply (hP _).2
          rcases hall u (List.mem_cons_of_mem _ hu) with rfl | rfl <;> simp

theorem map_classOf_part (part : List Nat) :
    ((part.map classOf) ≠ [] ∧
      ∀ k ∈ part.map classOf, k = UnitClass.dot ∨ k = UnitClass.other) ↔ addressPart part := by
  unfold addressPart
  constructor
  · rintro ⟨hne, hall⟩
    refine ⟨fun h => hne (by rw [h]; rfl), fun u hu => ?_⟩
    exact (classOf_part u).1 (hall _ (List.mem_map_of_mem _ hu))
  · rintro ⟨hne, hall⟩
    refine ⟨fun h => hne (List.map_eq_nil_iff.1 h), fun k hk => ?_⟩
    rw [List.mem_map] at hk
    obtain ⟨u, hu, rfl⟩ := hk
    exact (classOf_part u).2 (hall u hu)

theorem emailRegex_rmatch (value : List Nat) :
    emailRegex.rmatch (value.map classOf) = true ↔
      ∃ loc l r, value = loc ++ 64 :: (l ++ 46 :: r) ∧
        addressPart loc ∧ addressPart l ∧ addressPart r := by
  rw [RegularExpression.rmatch_iff_matches']
  unfold emailRegex
  simp only [RegularExpression.matches', Language.mem_mul]
  constructor
  · rintro ⟨a, ha, b1, ⟨x, hx, b2, ⟨b, hb, b3, ⟨y, hy, c, hc, rfl⟩, rfl⟩, rfl⟩, hval⟩
    have hx2 : x = [UnitClass.atSign] := hx
    have hy2 : y = [UnitClass.dot] := hy
    subst hx2 hy2
    change a ∈ (oneOrMore notSpaceOrAt).matches' at ha
    change b ∈ (oneOrMore notSpaceOrAt).matches' at hb
    change c ∈ (oneOrMore notSpaceOrAt).matches' at hc
    rw [mem_oneOrMore] at ha hb hc
    have hval2 := hval.symm
    rw [List.map_eq_append_iff] at hval2
    obtain ⟨loc, rest, rfl, rfl, hrest⟩ := hval2
    rw [List.singleton_append, List.map_eq_cons_iff] at hrest
    obtain ⟨u, rest2, rfl, hu, hrest2⟩ := hrest
    rw [List.map_eq_append_iff] at hrest2
    obtain ⟨l, rest3, rfl, rfl, hrest3⟩ := hrest2
    rw [List.singleton_append, List.map_eq_cons_iff] at hrest3
    obtain ⟨v, r, rfl, hv, rfl⟩ := hrest3
    rw [classOf_atSign] at hu
    rw [classOf_dot] at hv
    subst hu hv
    exact ⟨loc, l, r, rfl, (map_classOf_part _).1 ha, (map_classOf_part _).1 hb,
      (map_classOf_part _).1 hc⟩
  · rintro ⟨loc, l, r, rfl, hloc, hl, hr⟩
    refine ⟨loc.map classOf, ?_, _, ⟨[UnitClass.atSign], rfl, _, ⟨l.map classOf, ?_, _,
      ⟨[UnitClass.dot], rfl, r.map classOf, ?_, rfl⟩, rfl⟩, rfl⟩, ?_⟩
    · exact (mem_oneOrMore _).2 ((map_classOf_part _).2 hloc)
    · exact (mem_oneOrMore _).2 ((map_classOf_part _).2 hl)
    · exact (mem_oneOrMore _).2 ((map_classOf_part _).2 hr)
    · simp [classOf]

theorem count_zero_of_part (part : List Nat) (h : ∀ u ∈ part, unitWhitespace u = false ∧ u ≠ 64) :
    part.count 64 = 0 :=
  List.count_eq_zero.2 fun hm => (h 64 hm).2 rfl

/-- C23: for every string, taken as its UTF-16 code units, `validateEmail`
returns valid = true exactly when the string has no white space, has exactly
one `@`, has a unit before the `@`, and the part after the `@` has a dot that
is neither its first nor its last unit; `message` is `null` exactly when valid
is true; every string `local@domain.tld` with non-empty parts free of white
space and `@` is valid, and `test@example.com` is. -/
theorem validateEmail_shape (value : List Nat) :
    ((validateEmail value).valid = true ↔
      (∀ u ∈ value, unitWhitespace u = false) ∧ value.count 64 = 1 ∧
      ∃ loc dom, value = loc ++ 64 :: dom ∧ loc ≠ [] ∧
        ∃ l r, dom = l ++ 46 :: r ∧ l ≠ [] ∧ r ≠ []) ∧
    ((validateEmail value).message = none ↔ (validateEmail value).valid = true) ∧
    (∀ loc dom tld : List Nat, addressPart loc → addressPart dom → addressPart tld →
      (validateEmail (loc ++ 64 :: (dom ++ 46 :: tld))).valid = true) ∧
    (validateEmail (toUnits "test@example.com")).valid = true := by
  have hvalid : ∀ v, (validateEmail v).valid = emailRegex.rmatch (v.map classOf) := fun _ => rfl
  refine ⟨?_, ?_, ?_, ?_⟩
  · rw [hvalid, emailRegex_rmatch]
    constructor
    · rintro ⟨loc, l, r, rfl, hloc, hl, hr⟩
      refine ⟨?_, ?_, loc, _, rfl, hloc.1, l, r, rfl, hl.1, hr.1⟩
      · intro u hu
        simp only [List.mem_append, List.mem_cons] at hu
        rcases hu with hu | rfl | hu | rfl | hu
        · exact (hloc.2 u hu).1
        · decide
        · exact (hl.2 u hu).1
        · decide
        · exact (hr.2 u hu).1
      · simp [List.count_append, List.count_cons, count_zero_of_part _ hloc.2,
          count_zero_of_part _ hl.2, count_zero_of_part _ hr.2]
    · rintro ⟨hws, hcount, loc, dom, rfl, hloc, l, r, rfl, hl, hr⟩
      have hc : loc.count 64 = 0 ∧ l.count 64 = 0 ∧ r.count 64 = 0 := by
        simp [List.count_append, List.count_cons] at hcount
        omega
      refine ⟨loc, l, r, rfl, ⟨hloc, fun u hu => ⟨hws u (by simp [hu]), ?_⟩⟩,
        ⟨hl, fun u hu => ⟨hws u (by simp [hu]), ?_⟩⟩,
        ⟨hr, fun u hu => ⟨hws u (by simp [hu]), ?_⟩⟩⟩
      · rintro rfl
        exact List.count_eq_zero.1 hc.1 hu
      · rintro rfl
        exact List.count_eq_zero.1 hc.2.1 hu
      · rintro rfl
        exact List.count_eq_zero.1 hc.2.2 hu
  · unfold validateEmail
    cases emailRegex.rmatch (value.map classOf) <;> simp
  · intro loc dom tld hloc hdom htld
    rw [hvalid, emailRegex_rmatch]
    exact ⟨loc, dom, tld, rfl, hloc, hdom, htld⟩
  · rw [hvalid, emailRegex_rmatch]
    refine ⟨toUnits "test", toUnits "example", toUnits "com", by decide, ?_, ?_, ?_⟩ <;>
      exact ⟨by decide, by decide⟩

/-! ## Theorems: `sanitizeText` -/

theorem removeMatches_sublist (matchAt : List Nat → Option Nat) (s : List Nat) :
    ∀ skip, (removeMatches matchAt skip s).Sublist s := by
  induction s with
  | nil => intro skip; cases skip <;> exact List.Sublist.slnil
  | cons u rest ih =>
    intro skip
    cases skip with
    | succ k => exact (ih k).cons u
    | zero =>
      unfold removeMatches
      split
      · exact (ih _).cons u
      · exact (ih 0).cons₂ u

/-- C26 (defect): `sanitizeText` makes one pass for each pattern, so what a
removal brings together stays: `javajavascript:script:alert(1)` gives
`javascript:alert(1)`; `oonx=nclick=go` gives `onclick=go`, which matches
the event-handler pattern; `javaonx=script:` gives `javascript:`; and
`< a`, trimmed before the `<` is removed, gives a string that starts with a
space. -/
theorem sanitizeText_leaves_patterns :
    sanitizeText (some (toUnits "javajavascript:script:alert(1)")) =
      toUnits "javascript:alert(1)" ∧
    matchJavascript (sanitizeText (some (toUnits "javajavascript:script:alert(1)"))) = some 11 ∧
    sanitizeText (some (toUnits "oonx=nclick=go")) = toUnits "onclick=go" ∧
    matchHandler (sanitizeText (some (toUnits "oonx=nclick=go"))) = some 8 ∧
    sanitizeText (some (toUnits "javaonx=script:")) = toUnits "javascript:" ∧
    sanitizeText (some (toUnits "< a")) = toUnits " a" ∧
    (sanitizeText (some (toUnits "< a"))).head?.map unitWhitespace = some true := by
  refine ⟨by decide, by decide, by decide, by decide, by decide, by decide, by decide⟩

/-- What `sanitizeText` does ensure: the result has no `<` and no `>`, has at
most 1000 code units, and is the empty string for a value that is not a
string. -/
theorem sanitizeText_angle_and_length (input : Option (List Nat)) :
    (∀ u ∈ sanitizeText input, u ≠ 60 ∧ u ≠ 62) ∧
    (sanitizeText input).length ≤ 1000 ∧
    sanitizeText none = [] := by
  refine ⟨?_, ?_, rfl⟩
  · intro u hu
    cases input with
    | none => simp [sanitizeText] at hu
    | some s =>
      have h1 := (List.take_sublist 1000 _).subset hu
      have h2 := (removeMatches_sublist matchHandler _ 0).subset h1
      have h3 := (removeMatches_sublist matchJavascript _ 0).subset h2
      rw [List.mem_filter] at h3
      have h4 := h3.2
      simp only [Bool.not_eq_true', Bool.or_eq_false_iff, beq_eq_false_iff_ne, ne_eq] at h4
      exact h4
  · cases input with
    | none => simp [sanitizeText]
    | some s => exact List.length_take_le _ _

end Kaalcal
